import Mathlib

/-!
# Verification of the period-based capacity and booking engine

Shallow embedding of the reservation backend's availability/capacity core:

* `src/modules/areas/areas.service.ts` — `listByUnitPublic` (Availability
  Calculator), `clampToBusinessWindow` / `periodWindow` (Period Classifier),
  the block and aggregation queries it issues;
* `src/infrastructure/http/routes/reservations.public.routes.ts` — the public
  create-reservation route (`router.post('/')`), `getPeriodFromDate`,
  `genCode6` / `generateUniqueReservationCode`;
* `api/src/infrastructure/http/routes/reservations.routes.ts` —
  `resolveUnit`, `resolveArea` and the `enrichAndValidate` middleware
  (admin create/update capacity validation with the self-credit rule).

Modelling conventions:

* The Prisma store is a `Store` record of lists; `findMany`/`findFirst`/
  `findUnique`/`groupBy` become list filters, `find?` and per-key sums
  (a `groupBy` followed by a keyed map lookup is embedded directly as the
  per-key filtered sum it denotes).
* Wall-clock timestamps are `Timestamp`: a calendar day (`DayDate`, the
  local year/month/day triple) plus hour and minute.  Every window bound
  used by the code lies on a whole-minute boundary (`12:00:00.000`,
  `17:29:59.999`, `17:30:00.000`, `23:59:59.999`), so minute granularity
  represents the millisecond windows exactly: the bound `at(d,17,29,59,999)`
  is the last instant of minute `17:29` and is modelled as the inclusive
  minute `⟨d,17,29⟩`.
* JavaScript `Date` values obtained from real dates always satisfy
  `hr < 24 ∧ mi < 60`; `ValidTS` captures this where a proof needs it.
* Randomness (`Math.random`, `crypto`) is passed in explicitly: the code
  generator takes a stream `rand : Nat → Fin 32` of the successive values
  of `Math.floor(Math.random() * base.length)`.
* JavaScript truthiness on optional strings (`null`/`undefined`/`""` are
  falsy) is `truthyOpt`.
-/

/-- Reservation periods (`'AFTERNOON' | 'NIGHT'`). -/
inductive Period where
  | AFTERNOON
  | NIGHT
deriving DecidableEq, Repr

/-- Prisma enum `ReservationStatus` (migration
`20251005115518_add_reservation_code_step1`: `AWAITING_CHECKIN`,
`CHECKED_IN`).  The admin route `PUT /:id/status` writes a free-form string
into this column and the spec names further administrative states
(no-show/cancelled); they are collapsed into `OTHER`, which is all the
capacity queries ever distinguish. -/
inductive ReservationStatus where
  | AWAITING_CHECKIN
  | CHECKED_IN
  | OTHER
deriving DecidableEq, Repr

/-- Prisma enum `ReservationBlockPeriod`. -/
inductive ReservationBlockPeriod where
  | AFTERNOON
  | NIGHT
  | ALL_DAY
deriving DecidableEq, Repr

/-- Prisma enum `ReservationBlockMode`.  Only `PERIOD` is ever written by the
block routes; any other mode value is collapsed into `OTHERMODE`. -/
inductive ReservationBlockMode where
  | PERIOD
  | OTHERMODE
deriving DecidableEq, Repr

/-- A local calendar day: the `(getFullYear, getMonth, getDate)` triple of a
JS `Date` (month kept 1-based as in the `YYYY-MM-DD` strings). -/
structure DayDate where
  y : Nat
  m : Nat
  d : Nat
deriving DecidableEq, Repr

/-- A local wall-clock timestamp at minute granularity (see header note on
why minute granularity is exact for every window bound in the code). -/
structure Timestamp where
  day : DayDate
  hr : Nat
  mi : Nat
deriving DecidableEq, Repr

/-- Minutes elapsed since local midnight (`getHours()*60 + getMinutes()`). -/
def Timestamp.minutesOfDay (t : Timestamp) : Nat :=
  t.hr * 60 + t.mi

/-- Calendar order on days (lexicographic year, month, day): `a` is strictly
before `b`. -/
def DayDate.ltb (a b : DayDate) : Bool :=
  a.y < b.y || (a.y = b.y && (a.m < b.m || (a.m = b.m && a.d < b.d)))

/-- Chronological `≤` on timestamps, the order JS `Date` comparison gives for
in-range dates: strictly earlier day, or same day and not-later minute. -/
def tsLe (a b : Timestamp) : Bool :=
  DayDate.ltb a.day b.day || (a.day = b.day && a.minutesOfDay ≤ b.minutesOfDay)

/-- Gregorian leap-year rule. -/
def isLeapYear (y : Nat) : Bool :=
  y % 4 = 0 && (y % 100 ≠ 0 || y % 400 = 0)

/-- Days in a month (1-based month). -/
def daysInMonth (y m : Nat) : Nat :=
  if m = 1 || m = 3 || m = 5 || m = 7 || m = 8 || m = 10 || m = 12 then 31
  else if m = 4 || m = 6 || m = 9 || m = 11 then 30
  else if isLeapYear y then 29 else 28

/-- A timestamp whose time-of-day components are in the range a real JS
`Date` produces (`getHours() < 24`, `getMinutes() < 60`) and whose calendar
day round-trips through `YYYY-MM-DD` formatting (4-digit year, valid month
and day-of-month). -/
def ValidTS (t : Timestamp) : Prop :=
  t.hr < 24 ∧ t.mi < 60 ∧ t.day.y < 10000 ∧
    1 ≤ t.day.m ∧ t.day.m ≤ 12 ∧ 1 ≤ t.day.d ∧
    t.day.d ≤ daysInMonth t.day.y t.day.m

instance (t : Timestamp) : Decidable (ValidTS t) := by
  unfold ValidTS; infer_instance

/-- `startOfDay(d)` — midnight of `d`'s calendar day. -/
def startOfDay (t : Timestamp) : Timestamp :=
  { day := t.day, hr := 0, mi := 0 }

/-- `endOfDay(d)` — `23:59:59.999` of `d`'s calendar day (the whole final
minute, inclusive). -/
def endOfDay (t : Timestamp) : Timestamp :=
  { day := t.day, hr := 23, mi := 59 }

/-- `at(d, hh, mm, ss, ms)` — same calendar day, given time of day.  (`at` is
a Lean keyword, hence the name `atTime`.)  The two call sites with seconds,
`at(dt,17,29,59,999)`, denote the last instant of minute `17:29` and are
modelled as the inclusive minute `atTime dt 17 29`. -/
def atTime (t : Timestamp) (hh mm : Nat) : Timestamp :=
  { day := t.day, hr := hh, mi := mm }

/- ---------------- JS string helpers ---------------- -/

/-- JS truthiness of a nullable string: `null`/`undefined` and `""` are
falsy. -/
def truthyOpt : Option String → Bool
  | none => false
  | some s => !(s = "")

/-- ASCII lower-casing of one character (models `toLowerCase` on the ASCII
identifiers/slugs/emails this code compares). -/
def lowerChar (c : Char) : Char :=
  if 'A' ≤ c && c ≤ 'Z' then Char.ofNat (c.toNat + 32) else c

/-- ASCII `toLowerCase`. -/
def lowerStr (s : String) : String :=
  ⟨s.data.map lowerChar⟩

/-- ASCII whitespace test for `trim`. -/
def isWS (c : Char) : Bool :=
  c = ' ' || c = '\t' || c = '\n' || c = '\r'

/-- JS `String.prototype.trim` (ASCII whitespace). -/
def trimStr (s : String) : String :=
  ⟨((s.data.dropWhile isWS).reverse.dropWhile isWS).reverse⟩

/-- `a.includes(b)` / SQL `contains`: `b` occurs as a contiguous substring
of `a`. -/
def strContains (hay needle : String) : Bool :=
  decide (needle.data <:+: hay.data)

/-- `(v ?? '').trim().toLowerCase() || null` — `toLowerEmail` in the public
routes. -/
def toLowerEmail (v : Option String) : Option String :=
  let s := lowerStr (trimStr (v.getD ""))
  if s = "" then none else some s

/-- `String(phone).replace(/\D+/g, '')` — keep only digit characters. -/
def digitsOnly (s : String) : String :=
  ⟨s.data.filter Char.isDigit⟩

/- ---------------- digits, HH:mm and YYYY-MM-DD ---------------- -/

/-- The ASCII digit character for `n % 10`. -/
def digitCh (n : Nat) : Char :=
  Char.ofNat (48 + n % 10)

/-- Numeric value of an ASCII digit character. -/
def digitVal (c : Char) : Nat :=
  c.toNat - 48

/-- Value of a digit-character list read in base 10 (`Number` on an all-digit
string). -/
def digitsToNat (cs : List Char) : Nat :=
  cs.foldl (fun acc c => acc * 10 + digitVal c) 0

/-- `Number(s) || 0` restricted to the shapes this code ever feeds it: an
all-digit string yields its value, anything else (empty or non-numeric,
hence `NaN`) yields `0`.  The only strings reaching it through
`clampToBusinessWindow` are pieces of a `^\d{2}:\d{2}$` match or arbitrary
junk that the caller has already replaced by `"12:00"`, so the JS corner
cases (floats, signs, exotic whitespace) are unreachable. -/
def jsNumOr0 (cs : List Char) : Nat :=
  if cs ≠ [] && cs.all Char.isDigit then digitsToNat cs else 0

/-- `"HH:mm"` rendering (dayjs `format('HH:mm')`) of an hour/minute pair,
two zero-padded digits each. -/
def fmtHHmm (h m : Nat) : String :=
  ⟨[digitCh (h / 10), digitCh (h % 10), ':', digitCh (m / 10), digitCh (m % 10)]⟩

/-- `"YYYY-MM-DD"` rendering (dayjs `format('YYYY-MM-DD')`) of a calendar
day. -/
def fmtYMD (dy : DayDate) : String :=
  ⟨[digitCh (dy.y / 1000), digitCh (dy.y / 100), digitCh (dy.y / 10), digitCh dy.y,
    '-', digitCh (dy.m / 10), digitCh dy.m,
    '-', digitCh (dy.d / 10), digitCh dy.d]⟩

/-- `dayjs(s, 'YYYY-MM-DD', true)` — strict parse: exactly ten characters
`dddd-dd-dd` denoting an existing calendar date; the resulting `Date` is
local midnight of that day. -/
def parseDateStrict (s : String) : Option Timestamp :=
  match s.data with
  | [y1, y2, y3, y4, h1, m1, m2, h2, d1, d2] =>
    if (y1.isDigit && y2.isDigit && y3.isDigit && y4.isDigit &&
        h1 = '-' && m1.isDigit && m2.isDigit &&
        h2 = '-' && d1.isDigit && d2.isDigit) then
      let y := digitsToNat [y1, y2, y3, y4]
      let mo := digitsToNat [m1, m2]
      let dd := digitsToNat [d1, d2]
      if 1 ≤ mo && mo ≤ 12 && 1 ≤ dd && dd ≤ daysInMonth y mo then
        some { day := { y := y, m := mo, d := dd }, hr := 0, mi := 0 }
      else none
    else none
  | _ => none

/- ---------------- Period Classifier ---------------- -/

/-- `17:30` — cutoff of the NIGHT period (`EVENING_CUTOFF_MIN`, identical in
the areas service and the public reservations route). -/
def EVENING_CUTOFF_MIN : Nat := 17 * 60 + 30

/-- `isValidHHmm` — the regex test `^\d{2}:\d{2}$`. -/
def isValidHHmm (s : String) : Bool :=
  match s.data with
  | [a, b, c, d, e] => a.isDigit && b.isDigit && c = ':' && d.isDigit && e.isDigit
  | _ => false

/-- `s.split(':')` on the character list (JS `String.prototype.split` with a
single-character separator). -/
def splitCols : List Char → List (List Char)
  | [] => [[]]
  | c :: rest =>
    let r := splitCols rest
    if c = ':' then [] :: r
    else
      match r with
      | [] => [[c]]
      | h :: t => (c :: h) :: t

/-- `clampToBusinessWindow(hhmm)` of the areas service: split on `':'`,
coerce both pieces with `Number(x) || 0`, then classify
`mins = hh*60 + mm` — before `12:00` or between `12:00` and `17:29` is
AFTERNOON, from `17:30` on is NIGHT. -/
def clampToBusinessWindow (hhmm : String) : Period :=
  let parts := splitCols hhmm.data
  let hh := jsNumOr0 (parts.getD 0 [])
  let mm := jsNumOr0 (parts.getD 1 [])
  let mins := hh * 60 + mm
  if mins < 12 * 60 then Period.AFTERNOON
  else if EVENING_CUTOFF_MIN ≤ mins then Period.NIGHT
  else Period.AFTERNOON

/-- `getPeriodFromHM` — alias of `clampToBusinessWindow`. -/
def getPeriodFromHM (hhmm : String) : Period :=
  clampToBusinessWindow hhmm

/-- `getPeriodFromDate(dt)` of the public reservations route: the same
classification computed from `getHours()*60 + getMinutes()`. -/
def getPeriodFromDate (dt : Timestamp) : Period :=
  let mins := dt.minutesOfDay
  if mins < 12 * 60 then Period.AFTERNOON
  else if EVENING_CUTOFF_MIN ≤ mins then Period.NIGHT
  else Period.AFTERNOON

/-- Result of `periodWindow`: the inclusive bounds of the selected period's
window plus the period itself. -/
structure PeriodWindow where
  fromT : Timestamp
  toT : Timestamp
  period : Period
deriving DecidableEq, Repr

/-- `periodWindow(dt, hhmm)` of the areas service: NIGHT ↦
`[17:30, endOfDay]`, AFTERNOON ↦ `[12:00, 17:29:59.999]` of `dt`'s day. -/
def periodWindow (dt : Timestamp) (hhmm : String) : PeriodWindow :=
  let period := getPeriodFromHM hhmm
  match period with
  | Period.NIGHT => { fromT := atTime dt 17 30, toT := endOfDay dt, period := period }
  | Period.AFTERNOON => { fromT := atTime dt 12 0, toT := atTime dt 17 29, period := period }

/-- `periodWindow(dt)` of the public reservations route: same windows, the
period classified from the `Date` itself. -/
def periodWindowFromDate (dt : Timestamp) : PeriodWindow :=
  match getPeriodFromDate dt with
  | Period.NIGHT =>
    { fromT := atTime dt 17 30, toT := endOfDay dt, period := Period.NIGHT }
  | Period.AFTERNOON =>
    { fromT := atTime dt 12 0, toT := atTime dt 17 29, period := Period.AFTERNOON }

/- ---------------- Data model ---------------- -/

/-- `Unit` rows (named `VenueUnit`: `Unit` is taken in Lean). -/
structure VenueUnit where
  id : String
  name : String
  slug : String
  isActive : Bool
deriving DecidableEq, Repr

/-- `Area` rows (display metadata that no claim touches is carried as-is). -/
structure Area where
  id : String
  unitId : String
  name : String
  capacityAfternoon : Option Int
  capacityNight : Option Int
  isActive : Bool
  photoUrl : Option String := none
  description : Option String := none
  iconEmoji : Option String := none
deriving DecidableEq, Repr

/-- `Reservation` rows — the fields the capacity/booking core reads
(attribution, QR expiry and legacy name fields are irrelevant to every claim
and omitted). -/
structure Reservation where
  id : String
  fullName : String
  people : Int
  kids : Int
  reservationDate : Timestamp
  status : ReservationStatus
  unitId : Option String := none
  areaId : Option String := none
  email : Option String := none
  phone : Option String := none
  reservationCode : String := ""
  qrToken : String := ""
deriving DecidableEq, Repr

/-- `ReservationBlock` rows. -/
structure ReservationBlock where
  id : String
  unitId : String
  areaId : Option String
  date : Timestamp
  mode : ReservationBlockMode
  period : ReservationBlockPeriod
deriving DecidableEq, Repr

/-- The relational store: one list per table. -/
structure Store where
  units : List VenueUnit
  areas : List Area
  reservations : List Reservation
  blocks : List ReservationBlock
deriving DecidableEq, Repr

/-- Store well-formedness used by the general theorems: area ids are primary
keys (no duplicates), reservation dates come from real JS `Date`s, and block
rows carry either a real (non-empty) area id or SQL `NULL`. -/
def WFStore (db : Store) : Prop :=
  (db.areas.map fun a => a.id).Nodup ∧
    (∀ r ∈ db.reservations, ValidTS r.reservationDate) ∧
    (∀ b ∈ db.blocks, b.areaId ≠ some "")

instance (db : Store) : Decidable (WFStore db) := by
  unfold WFStore; infer_instance

/-- The public DTO returned by `listByUnitPublic`; the three availability
fields are `none` on the date-less (static) branch. -/
structure AreaPublicDTO where
  id : String
  name : String
  capacityAfternoon : Option Int
  capacityNight : Option Int
  photoUrl : Option String
  isActive : Bool
  description : Option String
  iconEmoji : Option String
  remaining : Option Int := none
  available : Option Int := none
  isAvailable : Option Bool := none
deriving DecidableEq, Repr

/-- `normalizePhotoUrl` with the image-prefix environment unset (external
configuration is outside the model): absolute `http(s)://`, protocol-relative
or `data:` URLs pass through, anything else is made root-relative.  The ASCII
case-insensitivity of the scheme regex is dropped — no claim reads this
field. -/
def normalizePhotoUrl (raw : Option String) : Option String :=
  match raw with
  | none => none
  | some s =>
    let v := trimStr s
    if v = "" then none
    else if v.startsWith "http://" || v.startsWith "https://" ||
        v.startsWith "//" || v.startsWith "data:" then some v
    else if v.startsWith "/" then some v else some ("/" ++ v)

/-- An area row projected onto the public DTO (the `...a` spread plus
`photoUrl: normalizePhotoUrl(a.photoUrl)`). -/
def areaToDTO (a : Area) : AreaPublicDTO :=
  { id := a.id, name := a.name, capacityAfternoon := a.capacityAfternoon,
    capacityNight := a.capacityNight, photoUrl := normalizePhotoUrl a.photoUrl,
    isActive := a.isActive, description := a.description,
    iconEmoji := a.iconEmoji }

/-- Does a reservation row match the capacity aggregation query for window
`[fromT, toT]` and target area `aid`?  (`areaId = aid`, `reservationDate`
within the inclusive window, `status ∈ {AWAITING_CHECKIN, CHECKED_IN}` —
the `groupBy` in `listByUnitPublic` and the one in the public create route
use exactly this row filter.) -/
def reservationCounted (fromT toT : Timestamp) (aid : String) (r : Reservation) : Bool :=
  r.areaId = some aid && tsLe fromT r.reservationDate &&
    tsLe r.reservationDate toT &&
    (r.status = ReservationStatus.AWAITING_CHECKIN ||
      r.status = ReservationStatus.CHECKED_IN)

/-- `Σ (people + kids)` over the rows matching `reservationCounted` — the
value `usedMap.get(aid) ?? 0` (resp. `grouped[0]._sum` in the create route)
denotes. -/
def usedInWindow (rs : List Reservation) (fromT toT : Timestamp) (aid : String) : Int :=
  ((rs.filter (reservationCounted fromT toT aid)).map
    (fun r => r.people + r.kids)).sum

/-- `orderBy: { name: 'asc' }` — stable sort of the selected areas by
name. -/
def sortAreasByName (l : List Area) : List Area :=
  List.insertionSort (fun a b => a.name ≤ b.name) l

/-- Block-table filter of the period branch of `listByUnitPublic`: unit,
`mode = PERIOD`, `date` within the calendar day of `base`, `period` equal to
`ALL_DAY` or to the current period. -/
def periodBlockRow (unitId : String) (base : Timestamp) (cur : Period)
    (b : ReservationBlock) : Bool :=
  b.unitId = unitId && b.mode = ReservationBlockMode.PERIOD &&
    tsLe (startOfDay base) b.date && tsLe b.date (endOfDay base) &&
    (b.period = ReservationBlockPeriod.ALL_DAY ||
      b.period = (match cur with
        | Period.AFTERNOON => ReservationBlockPeriod.AFTERNOON
        | Period.NIGHT => ReservationBlockPeriod.NIGHT))

/-- Block-table filter of the whole-day branch: unit, `mode = PERIOD`, `date`
within the day, `period = ALL_DAY` only. -/
def allDayBlockRow (unitId : String) (base : Timestamp) (b : ReservationBlock) : Bool :=
  b.unitId = unitId && b.mode = ReservationBlockMode.PERIOD &&
    tsLe (startOfDay base) b.date && tsLe b.date (endOfDay base) &&
    b.period = ReservationBlockPeriod.ALL_DAY

/-- Period branch of `listByUnitPublic` (a `timeHHmm` string was given):
derive the period window from `safeTime`, fetch the day's PERIOD/ALL_DAY
blocks, aggregate `used` per area over the period window, and produce
`remaining = blocked ? 0 : max(0, periodCap - used)`. -/
def listPeriodBranch (db : Store) (unitId : String) (base : Timestamp)
    (safeTime : String) (sorted : List Area) : List AreaPublicDTO :=
  let pw := periodWindow base safeTime
  let blocks := db.blocks.filter (periodBlockRow unitId base pw.period)
  let blockedAll := blocks.any (fun b => !truthyOpt b.areaId)
  let blockedAreas := (blocks.filter (fun b => truthyOpt b.areaId)).map
    (fun b => b.areaId.getD "")
  sorted.map (fun a =>
    let isBlocked := blockedAll || blockedAreas.any (fun s => s = a.id)
    let periodCap := match pw.period with
      | Period.AFTERNOON => a.capacityAfternoon.getD 0
      | Period.NIGHT => a.capacityNight.getD 0
    let used := usedInWindow db.reservations pw.fromT pw.toT a.id
    let availableBase := max 0 (periodCap - used)
    let available := if isBlocked then 0 else availableBase
    { areaToDTO a with
      remaining := some available
      available := some available
      isAvailable := some (decide (0 < available)) })

/-- Whole-day branch of `listByUnitPublic` (date given, no time): full-day
window, ALL_DAY blocks only, capacity `(capacityAfternoon ?? 0) +
(capacityNight ?? 0)`. -/
def listWholeDayBranch (db : Store) (unitId : String) (base : Timestamp)
    (sorted : List Area) : List AreaPublicDTO :=
  let fromT := startOfDay base
  let toT := endOfDay base
  let dayBlocks := db.blocks.filter (allDayBlockRow unitId base)
  let blockedAllDayAll := dayBlocks.any (fun b => !truthyOpt b.areaId)
  let blockedAllDayAreas := (dayBlocks.filter (fun b => truthyOpt b.areaId)).map
    (fun b => b.areaId.getD "")
  sorted.map (fun a =>
    let isBlocked := blockedAllDayAll || blockedAllDayAreas.any (fun s => s = a.id)
    let dayCap := a.capacityAfternoon.getD 0 + a.capacityNight.getD 0
    let used := usedInWindow db.reservations fromT toT a.id
    let availableBase := max 0 (dayCap - used)
    let available := if isBlocked then 0 else availableBase
    { areaToDTO a with
      remaining := some available
      available := some available
      isAvailable := some (decide (0 < available)) })

/-- `areasService.listByUnitPublic(unitId, dateISO?, timeHHmm?)`.  `now` is
the wall clock at the moment of the call: the source falls back to
`new Date()` when `dateISO` is present but fails the strict `YYYY-MM-DD`
parse.  Empty strings are falsy in the source's `if (!unitId)` /
`if (!dateISO)` / `if (timeHHmm)` guards, hence the `truthyOpt` tests. -/
def listByUnitPublic (db : Store) (now : Timestamp) (unitId : String)
    (dateISO : Option String) (timeHHmm : Option String) : List AreaPublicDTO :=
  if unitId = "" then []
  else
    let sorted := sortAreasByName
      (db.areas.filter (fun a => a.unitId = unitId && a.isActive))
    if !truthyOpt dateISO then sorted.map areaToDTO
    else
      let base := (parseDateStrict (dateISO.getD "")).getD now
      if truthyOpt timeHHmm then
        let t := timeHHmm.getD ""
        let safeTime := if isValidHHmm t then t else "12:00"
        listPeriodBranch db unitId base safeTime sorted
      else
        listWholeDayBranch db unitId base sorted

/- ---------------- Public create route (POST /v1/reservations/public) ---------------- -/

/-- Body of a public create-reservation request — the fields the validation
and capacity logic read.  `reservationDate` is `none` when the field is
missing or `dayjs(...)` finds it invalid; numeric fields arrive as JS
numbers. -/
structure CreateRequest where
  fullName : String
  people : Int
  kids : Int := 0
  reservationDate : Option Timestamp
  email : Option String := none
  phone : Option String := none
  unitId : Option String := none
  areaId : Option String := none
deriving DecidableEq, Repr

/-- Machine-readable error codes of the public create route, in source
order of the branches that emit them. -/
inductive CreateError where
  | VALIDATION
  | ALREADY_HAS_ACTIVE_RESERVATION
  | UNIT_NOT_FOUND
  | AREA_NOT_FOUND
  | BLOCKED_DAY
  | NO_CAPACITY
deriving DecidableEq, Repr

/-- `phone ? String(phone).replace(/\D+/g, '') : null`. -/
def normPhone (p : Option String) : Option String :=
  if truthyOpt p then some (digitsOnly (p.getD "")) else none

/-- The read/validation phase of `router.post('/')` in
`reservations.public.routes.ts`, in the source's exact order: basic field
validation, anti-duplication by contact, unit lookup, area lookup, block
lookup, capacity aggregation.  Returns the first error hit, `none` when the
request may be committed.  Every Prisma read the handler performs happens
inside this phase; the single write (`prisma.reservation.create`) happens
strictly after it. -/
def publicCreateCheck (db : Store) (req : CreateRequest) : Option CreateError :=
  if req.fullName = "" || (trimStr req.fullName).data.length < 3 then
    some CreateError.VALIDATION
  else if req.people < 1 then some CreateError.VALIDATION
  else if !truthyOpt req.unitId then some CreateError.VALIDATION
  else if !truthyOpt req.areaId then some CreateError.VALIDATION
  else
    match req.reservationDate with
    | none => some CreateError.VALIDATION
    | some dt =>
      let emailNorm := toLowerEmail req.email
      let phoneNorm := normPhone req.phone
      if (truthyOpt emailNorm || truthyOpt phoneNorm) &&
          db.reservations.any (fun r =>
            r.status = ReservationStatus.AWAITING_CHECKIN &&
              ((truthyOpt emailNorm && r.email = emailNorm) ||
                (truthyOpt phoneNorm && r.phone = phoneNorm))) then
        some CreateError.ALREADY_HAS_ACTIVE_RESERVATION
      else
        match db.units.find? (fun u => u.id = req.unitId.getD "") with
        | none => some CreateError.UNIT_NOT_FOUND
        | some unit =>
          if !unit.isActive then some CreateError.UNIT_NOT_FOUND
          else
            match db.areas.find? (fun a => a.id = req.areaId.getD "") with
            | none => some CreateError.AREA_NOT_FOUND
            | some area =>
              if !area.isActive || area.unitId ≠ unit.id then
                some CreateError.AREA_NOT_FOUND
              else
                let cur := match getPeriodFromDate dt with
                  | Period.AFTERNOON => ReservationBlockPeriod.AFTERNOON
                  | Period.NIGHT => ReservationBlockPeriod.NIGHT
                let blocks := db.blocks.filter (fun b =>
                  b.unitId = unit.id && b.mode = ReservationBlockMode.PERIOD &&
                    tsLe (startOfDay dt) b.date && tsLe b.date (endOfDay dt) &&
                    (b.period = ReservationBlockPeriod.ALL_DAY || b.period = cur) &&
                    (b.areaId = none || b.areaId = some area.id))
                if 0 < blocks.length then some CreateError.BLOCKED_DAY
                else
                  let pw := periodWindowFromDate dt
                  let maxPeriod := match getPeriodFromDate dt with
                    | Period.AFTERNOON => area.capacityAfternoon.getD 0
                    | Period.NIGHT => area.capacityNight.getD 0
                  let alreadyUsed := usedInWindow db.reservations pw.fromT pw.toT area.id
                  let willUse := max 0 req.people + max 0 req.kids
                  let remaining := max 0 (maxPeriod - alreadyUsed)
                  if remaining < willUse then some CreateError.NO_CAPACITY
                  else none

/-- The write phase of `router.post('/')`: `prisma.reservation.create` with
the normalized data.  `rid` is the DB-generated row id, `code` the value of
`generateUniqueReservationCode()`, `qrTok` the random hex token. -/
def publicCreateInsert (db : Store) (req : CreateRequest)
    (rid code qrTok : String) : Store :=
  let dt := req.reservationDate.getD { day := { y := 0, m := 0, d := 0 }, hr := 0, mi := 0 }
  let unitId := (db.units.find? (fun u => u.id = req.unitId.getD "")).map (fun u => u.id)
  let areaId := (db.areas.find? (fun a => a.id = req.areaId.getD "")).map (fun a => a.id)
  { db with reservations := db.reservations ++
      [{ id := rid, fullName := req.fullName,
         people := max 0 req.people, kids := max 0 req.kids,
         reservationDate := dt, status := ReservationStatus.AWAITING_CHECKIN,
         unitId := unitId, areaId := areaId,
         email := toLowerEmail req.email, phone := normPhone req.phone,
         reservationCode := code, qrToken := qrTok }] }

/-- The whole handler: all checks, then — only if none failed — the single
insert. -/
def publicCreateRoute (db : Store) (req : CreateRequest)
    (rid code qrTok : String) : Option CreateError × Store :=
  match publicCreateCheck db req with
  | some e => (some e, db)
  | none => (none, publicCreateInsert db req rid code qrTok)

/- ---------------- Reservation code generator ---------------- -/

/-- The 32-symbol alphabet of `genCode6` (`0`, `O`, `1`, `I` excluded). -/
def ALPHABET : List Char := "ABCDEFGHJKLMNPQRSTUVWXYZ23456789".data

/-- `genCode6()` — six characters drawn from `ALPHABET`; `rand` is the
stream of values of `Math.floor(Math.random() * base.length)` and `callIdx`
numbers the calls, so call `i` consumes draws `6*i .. 6*i+5`. -/
def genCode6 (rand : Nat → Fin 32) (callIdx : Nat) : String :=
  ⟨(List.range 6).map (fun j => ALPHABET.getD (rand (6 * callIdx + j)).val 'A')⟩

/-- Result of the code generator, instrumented for the specification:
the returned code, how many codes were checked against the store for
collision, and whether the returned code itself passed such a check. -/
structure CodeGenResult where
  code : String
  checksPerformed : Nat
  verified : Bool
deriving DecidableEq, Repr

/-- The retry loop of `generateUniqueReservationCode`, by remaining
attempts: with fuel `n+1`, generate code number `i`, return it if the store
has no row with that `reservationCode`, otherwise recurse; with fuel `0`
(all attempts collided) return one more fresh, unchecked code. -/
def genUniqueAux (existsCode : String → Bool) (rand : Nat → Fin 32) :
    Nat → Nat → CodeGenResult
  | i, 0 => { code := genCode6 rand i, checksPerformed := 0, verified := false }
  | i, n + 1 =>
    let code := genCode6 rand i
    if existsCode code then
      let r := genUniqueAux existsCode rand (i + 1) n
      { r with checksPerformed := r.checksPerformed + 1 }
    else { code := code, checksPerformed := 1, verified := true }

/-- `generateUniqueReservationCode()` — the loop `for (let i = 0; i < 8; ...)`
followed by the unchecked fallback `return genCode6()`. `existsCode c` is
the collision probe `prisma.reservation.findUnique({ where:
{ reservationCode: c } }) !== null`. -/
def generateUniqueReservationCode (existsCode : String → Bool)
    (rand : Nat → Fin 32) : CodeGenResult :=
  genUniqueAux existsCode rand 0 8

/- ---------------- Interleaved execution of concurrent creates ---------------- -/

/-- Progress of one in-flight public create request: not yet checked, checks
finished (with their outcome), or finished (insert done iff admitted). -/
inductive ReqPhase where
  | unchecked
  | checked (ok : Bool)
  | done (admitted : Bool)
deriving DecidableEq, Repr

/-- One in-flight request plus the identifiers its insert would use. -/
structure PendingReq where
  req : CreateRequest
  rid : String
  code : String
  qrTok : String
deriving DecidableEq, Repr

/-- Shared store plus per-request progress. -/
structure RaceState where
  db : Store
  phases : List ReqPhase
deriving DecidableEq, Repr

/-- One scheduler step: let request `i` run its next phase against the
current shared store.  The check phase evaluates `publicCreateCheck` on the
store as it is *now*; the insert phase commits iff that earlier check
passed — exactly the non-atomic check-then-act of the handler. -/
def raceStep (reqs : List PendingReq) (st : RaceState) (i : Nat) : RaceState :=
  match reqs.get? i, st.phases.get? i with
  | some pr, some ReqPhase.unchecked =>
    { st with phases :=
        st.phases.set i (ReqPhase.checked (publicCreateCheck st.db pr.req).isNone) }
  | some pr, some (ReqPhase.checked ok) =>
    { db := if ok then publicCreateInsert st.db pr.req pr.rid pr.code pr.qrTok
        else st.db,
      phases := st.phases.set i (ReqPhase.done ok) }
  | _, _ => st

/-- Run a schedule (a list of request indices; each request advances one
phase per occurrence) from an initial store. -/
def raceRun (reqs : List PendingReq) (db : Store) (sched : List Nat) : RaceState :=
  sched.foldl (raceStep reqs)
    { db := db, phases := reqs.map (fun _ => ReqPhase.unchecked) }

/-- Total requested size (`max(0,people) + max(0,kids)`, what the inserts
commit) of the requests that were admitted. -/
def admittedSizes (reqs : List PendingReq) (st : RaceState) : Int :=
  (((reqs.zip st.phases).filter (fun p => p.2 = ReqPhase.done true)).map
    (fun p => max 0 p.1.req.people + max 0 p.1.req.kids)).sum

/- ---------------- Admin create/update middleware (enrichAndValidate) ---------------- -/

/-- `resolveUnit` of `reservations.routes.ts`: prefer the id lookup, then
exact slug, then SQL `contains` on the name, then the in-JS case-insensitive
fallbacks over all units.  Returns `(unitId, unitName)`. -/
def resolveUnit (db : Store) (unitIdIn unitIn : Option String) :
    Option String × Option String :=
  match (if truthyOpt unitIdIn then
      db.units.find? (fun u => u.id = unitIdIn.getD "") else none) with
  | some u => (some u.id, some u.name)
  | none =>
    let raw := trimStr (unitIn.getD "")
    if raw = "" then (none, none)
    else
      let guessSlug := lowerStr raw
      let lowered := lowerStr raw
      let u := ((((db.units.find? (fun x => x.slug = guessSlug)).orElse (fun _ =>
        db.units.find? (fun x => strContains x.name raw))).orElse (fun _ =>
        db.units.find? (fun x => lowerStr x.slug = lowered))).orElse (fun _ =>
        db.units.find? (fun x => lowerStr x.name = lowered))).orElse (fun _ =>
        db.units.find? (fun x => strContains (lowerStr x.name) lowered))
      match u with
      | some x => (some x.id, some x.name)
      | none => (none, none)

/-- `resolveArea` of `reservations.routes.ts`: id lookup, then (within the
unit) exact name, SQL `contains`, and the in-JS case-insensitive fallbacks.
Returns `(areaId, areaName)`. -/
def resolveArea (db : Store) (areaIdIn areaIn unitIdIn : Option String) :
    Option String × Option String :=
  match (if truthyOpt areaIdIn then
      db.areas.find? (fun a => a.id = areaIdIn.getD "") else none) with
  | some a => (some a.id, some a.name)
  | none =>
    let raw := trimStr (areaIn.getD "")
    if raw = "" || !truthyOpt unitIdIn then (none, none)
    else
      let uid := unitIdIn.getD ""
      let lowered := lowerStr raw
      let a := (((db.areas.find? (fun x => x.unitId = uid && x.name = raw)).orElse
        (fun _ => db.areas.find? (fun x => x.unitId = uid && strContains x.name raw))).orElse
        (fun _ => (db.areas.filter (fun x => x.unitId = uid)).find?
          (fun x => lowerStr x.name = lowered))).orElse
        (fun _ => (db.areas.filter (fun x => x.unitId = uid)).find?
          (fun x => strContains (lowerStr x.name) lowered))
      match a with
      | some x => (some x.id, some x.name)
      | none => (none, none)

/-- Body of an admin create/update request as `enrichAndValidate` reads
it. -/
structure AdminBody where
  people : Int
  kids : Int
  reservationDate : Option Timestamp
  unitId : Option String := none
  unit : Option String := none
  areaId : Option String := none
  area : Option String := none
deriving DecidableEq, Repr

/-- Outcome of the `enrichAndValidate` middleware: 400 `AREA_NOT_FOUND`,
409 `AREA_NO_CAPACITY` (with the `available` and `credit` it reports), or
`next()` with the resolved ids. -/
inductive EnrichOutcome where
  | areaNotFound
  | areaNoCapacity (available credit : Int)
  | proceed (unitId areaId : Option String)
deriving DecidableEq, Repr

/-- Did the middleware let the request through to the controller? -/
def EnrichOutcome.isPass : EnrichOutcome → Bool
  | EnrichOutcome.proceed _ _ => true
  | _ => false

/-- The `enrichAndValidate` middleware of `reservations.routes.ts`.
`updateId` is `req.params.id` on a `PUT`, `none` otherwise; `now` is the
wall clock (consumed by `listByUnitPublic`'s invalid-date fallback — the
`ymd` built here always parses, so it is never actually used when the body
carries a real date).  Capacity rule: reject with `AREA_NO_CAPACITY` iff
`people + kids > available + credit`, where `credit` is the previous row's
`people + kids` if and only if the previous and new values of
`(unitId, areaId, 'YYYY-MM-DD', 'HH:mm')` — formatted strings, so the exact
minute, not the derived period — all coincide. -/
def enrichAndValidate (db : Store) (now : Timestamp) (updateId : Option String)
    (body : AdminBody) : EnrichOutcome :=
  let res1 := resolveUnit db body.unitId body.unit
  let unitId := res1.1
  let res2 := resolveArea db body.areaId body.area unitId
  let areaId := res2.1
  if truthyOpt areaId && body.reservationDate.isSome then
    let dt := body.reservationDate.getD { day := { y := 0, m := 0, d := 0 }, hr := 0, mi := 0 }
    let ymd := fmtYMD dt.day
    let hhmm := fmtHHmm dt.hr dt.mi
    let list := listByUnitPublic db now (unitId.getD "null") (some ymd) (some hhmm)
    match list.find? (fun a => a.id = areaId.getD "") with
    | none => EnrichOutcome.areaNotFound
    | some found =>
      let totalNovo := body.people + body.kids
      let available := found.available.getD (found.remaining.getD 0)
      let credit :=
        match updateId with
        | none => 0
        | some rid =>
          match db.reservations.find? (fun r => r.id = rid) with
          | none => 0
          | some prev =>
            let sameArea := decide ((prev.areaId.getD "") = (areaId.getD ""))
            let sameUnit := decide ((prev.unitId.getD "") = (unitId.getD ""))
            let sameDay := decide (fmtYMD prev.reservationDate.day = ymd)
            let samePeriod := decide
              (fmtHHmm prev.reservationDate.hr prev.reservationDate.mi = hhmm)
            if sameUnit && sameArea && sameDay && samePeriod then
              prev.people + prev.kids
            else 0
      if available + credit < totalNovo then
        EnrichOutcome.areaNoCapacity available credit
      else EnrichOutcome.proceed unitId areaId
  else EnrichOutcome.proceed unitId areaId

/- ---------------- Specification-side definitions ----------------
These restate, in the spec's own vocabulary (§4.1–§4.4, §8), what the
claims assert; the theorems below relate them to the code model. -/

/-- Spec §4.1: the window of period `P` on day `D` — AFTERNOON
`[12:00, 17:29:59.999]`, NIGHT `[17:30, 23:59:59.999]`. -/
def specPeriodWindow (day : DayDate) : Period → Timestamp × Timestamp
  | Period.AFTERNOON => ({ day := day, hr := 12, mi := 0 }, { day := day, hr := 17, mi := 29 })
  | Period.NIGHT => ({ day := day, hr := 17, mi := 30 }, { day := day, hr := 23, mi := 59 })

/-- Spec §4.2 / §8: does reservation `r` count toward `used(A, P, D)`?
On area `A`, status in `{AWAITING_CHECKIN, CHECKED_IN}`, `reservationDate`
inside the window of `P` on `D`. -/
def specCountsToward (day : DayDate) (p : Period) (aid : String)
    (r : Reservation) : Bool :=
  (r.status = ReservationStatus.AWAITING_CHECKIN ||
      r.status = ReservationStatus.CHECKED_IN) &&
    r.areaId = some aid &&
    tsLe (specPeriodWindow day p).1 r.reservationDate &&
    tsLe r.reservationDate (specPeriodWindow day p).2

/-- Spec §8: `used(A, P, D) = Σ (people + kids)` over the reservations that
count. -/
def specUsed (db : Store) (aid : String) (day : DayDate) (p : Period) : Int :=
  ((db.reservations.filter (specCountsToward day p aid)).map
    (fun r => r.people + r.kids)).sum

/-- Spec §4.4: `capacity(A, P)` — the per-period capacity column, `null`
meaning 0. -/
def specCapacity (a : Area) : Period → Int
  | Period.AFTERNOON => a.capacityAfternoon.getD 0
  | Period.NIGHT => a.capacityNight.getD 0

/-- Spec §4.3 / claim C2: a qualifying block for `(unit, A-or-null, D,
P-or-ALL_DAY)` — a PERIOD-mode block of the unit dated within `D`, whose
period is `P` or `ALL_DAY`, and whose `areaId` is `NULL` (unit-wide) or
equals `A`. -/
def specBlocked (db : Store) (u : String) (aid : String) (day : DayDate)
    (p : Period) : Bool :=
  db.blocks.any (fun b =>
    b.unitId = u && b.mode = ReservationBlockMode.PERIOD &&
      tsLe { day := day, hr := 0, mi := 0 } b.date &&
      tsLe b.date { day := day, hr := 23, mi := 59 } &&
      (b.period = ReservationBlockPeriod.ALL_DAY ||
        b.period = (match p with
          | Period.AFTERNOON => ReservationBlockPeriod.AFTERNOON
          | Period.NIGHT => ReservationBlockPeriod.NIGHT)) &&
      (b.areaId = none || b.areaId = some aid))

/-- Spec §8: `remaining(A, P, D) = max(0, capacity − used)`, forced to 0 by
a qualifying block. -/
def specRemaining (db : Store) (a : Area) (day : DayDate) (p : Period) : Int :=
  if specBlocked db a.unitId a.id day p then 0
  else max 0 (specCapacity a p - specUsed db a.id day p)

/-- Claim C6 (whole-day view): does reservation `r` count toward the
whole-day used total of area `A` on day `D` (full calendar-day window)? -/
def specDayCountsToward (day : DayDate) (aid : String) (r : Reservation) : Bool :=
  (r.status = ReservationStatus.AWAITING_CHECKIN ||
      r.status = ReservationStatus.CHECKED_IN) &&
    r.areaId = some aid &&
    tsLe { day := day, hr := 0, mi := 0 } r.reservationDate &&
    tsLe r.reservationDate { day := day, hr := 23, mi := 59 }

/-- Whole-day `used(A, D)` over the full calendar day. -/
def specDayUsed (db : Store) (aid : String) (day : DayDate) : Int :=
  ((db.reservations.filter (specDayCountsToward day aid)).map
    (fun r => r.people + r.kids)).sum

/-- Whole-day blocking: an `ALL_DAY` PERIOD-mode block of the unit dated
within `D`, unit-wide or for area `A`. -/
def specDayBlocked (db : Store) (u : String) (aid : String) (day : DayDate) : Bool :=
  db.blocks.any (fun b =>
    b.unitId = u && b.mode = ReservationBlockMode.PERIOD &&
      tsLe { day := day, hr := 0, mi := 0 } b.date &&
      tsLe b.date { day := day, hr := 23, mi := 59 } &&
      b.period = ReservationBlockPeriod.ALL_DAY &&
      (b.areaId = none || b.areaId = some aid))

/-- Whole-day `remaining`: capacity is the sum of both period capacities,
forced to 0 only by a qualifying ALL_DAY block. -/
def specDayRemaining (db : Store) (a : Area) (day : DayDate) : Int :=
  if specDayBlocked db a.unitId a.id day then 0
  else max 0 ((a.capacityAfternoon.getD 0 + a.capacityNight.getD 0)
    - specDayUsed db a.id day)

/- ---------------- Named stages of the public create validation ----------------
The following predicates name, one by one, the read/check stages that
`publicCreateCheck` performs inline, for stating in which order the route
reports failures. -/

/-- The anti-duplication stage: some contact key is present and an
`AWAITING_CHECKIN` reservation already matches it. -/
def publicDupHit (db : Store) (req : CreateRequest) : Bool :=
  let emailNorm := toLowerEmail req.email
  let phoneNorm := normPhone req.phone
  (truthyOpt emailNorm || truthyOpt phoneNorm) &&
    db.reservations.any (fun r =>
      r.status = ReservationStatus.AWAITING_CHECKIN &&
        ((truthyOpt emailNorm && r.email = emailNorm) ||
          (truthyOpt phoneNorm && r.phone = phoneNorm)))

/-- The unit-resolution stage: the referenced unit row, provided it exists
and is active. -/
def publicUnitOk (db : Store) (req : CreateRequest) : Option VenueUnit :=
  match db.units.find? (fun u => u.id = req.unitId.getD "") with
  | none => none
  | some u => if u.isActive then some u else none

/-- The area-resolution stage: the referenced area row, provided it exists,
is active and belongs to the resolved unit. -/
def publicAreaOk (db : Store) (req : CreateRequest) (unit : VenueUnit) : Option Area :=
  match db.areas.find? (fun a => a.id = req.areaId.getD "") with
  | none => none
  | some a => if a.isActive && a.unitId = unit.id then some a else none

/-- The block stage: some PERIOD-mode block of the unit covers the request's
day and period, unit-wide or for the target area. -/
def publicBlockHit (db : Store) (dt : Timestamp) (unit : VenueUnit) (area : Area) : Bool :=
  let cur := match getPeriodFromDate dt with
    | Period.AFTERNOON => ReservationBlockPeriod.AFTERNOON
    | Period.NIGHT => ReservationBlockPeriod.NIGHT
  0 < (db.blocks.filter (fun b =>
    b.unitId = unit.id && b.mode = ReservationBlockMode.PERIOD &&
      tsLe (startOfDay dt) b.date && tsLe b.date (endOfDay dt) &&
      (b.period = ReservationBlockPeriod.ALL_DAY || b.period = cur) &&
      (b.areaId = none || b.areaId = some area.id))).length

/-- The capacity stage: the requested party exceeds
`max(0, periodCapacity - alreadyUsed)`. -/
def publicOverCap (db : Store) (req : CreateRequest) (dt : Timestamp) (area : Area) : Bool :=
  let pw := periodWindowFromDate dt
  let maxPeriod := match getPeriodFromDate dt with
    | Period.AFTERNOON => area.capacityAfternoon.getD 0
    | Period.NIGHT => area.capacityNight.getD 0
  let alreadyUsed := usedInWindow db.reservations pw.fromT pw.toT area.id
  max 0 (maxPeriod - alreadyUsed) < max 0 req.people + max 0 req.kids

/- ---------------- Concrete demonstration data ----------------
Small stores and requests used by the concrete counterexample/witness
theorems below. -/

/-- A one-unit, one-area store: capacity 1 in the afternoon, no
reservations, no blocks. -/
def raceStore : Store :=
  { units := [{ id := "u1", name := "Mane", slug := "mane", isActive := true }]
    areas := [{ id := "a1", unitId := "u1", name := "Deck"
                capacityAfternoon := some 1, capacityNight := some 8, isActive := true }]
    reservations := []
    blocks := [] }

/-- Two size-1 public create requests for the same afternoon slot of
`raceStore`'s area, from different contacts. -/
def raceReqs : List PendingReq :=
  [{ req := { fullName := "Ana Silva"
              people := 1
              kids := 0
              reservationDate := some { day := { y := 2026, m := 5, d := 10 }, hr := 13, mi := 0 }
              email := some "ana@ex.com"
              unitId := some "u1"
              areaId := some "a1" }
     rid := "r1"
     code := "AAAAAA"
     qrTok := "t1" },
   { req := { fullName := "Bruno Costa"
              people := 1
              kids := 0
              reservationDate := some { day := { y := 2026, m := 5, d := 10 }, hr := 13, mi := 0 }
              email := some "bruno@ex.com"
              unitId := some "u1"
              areaId := some "a1" }
     rid := "r2"
     code := "BBBBBB"
     qrTok := "t2" }]

/-- A demonstration area: afternoon capacity 10, night capacity 8. -/
def availArea : Area :=
  { id := "a1"
    unitId := "u1"
    name := "Deck"
    capacityAfternoon := some 10
    capacityNight := some 8
    isActive := true }

/-- A demonstration store: one active unit, `availArea`, and one
`AWAITING_CHECKIN` reservation of 6 + 2 people at 13:00 on 2026-05-10. -/
def availStore : Store :=
  { units := [{ id := "u1", name := "Mane", slug := "mane", isActive := true }]
    areas := [availArea]
    reservations := [{ id := "r1"
                       fullName := "Ana Silva"
                       people := 6
                       kids := 2
                       reservationDate := { day := { y := 2026, m := 5, d := 10 }, hr := 13, mi := 0 }
                       status := ReservationStatus.AWAITING_CHECKIN
                       unitId := some "u1"
                       areaId := some "a1" }]
    blocks := [] }

/-- A store whose only reservation is a pre-noon (09:00) `AWAITING_CHECKIN`
party of 5 on the area. -/
def c5Store : Store :=
  { units := [{ id := "u1", name := "Mane", slug := "mane", isActive := true }]
    areas := [availArea]
    reservations := [{ id := "r1"
                       fullName := "Ana Silva"
                       people := 5
                       kids := 0
                       reservationDate := { day := { y := 2026, m := 5, d := 10 }, hr := 9, mi := 0 }
                       status := ReservationStatus.AWAITING_CHECKIN
                       unitId := some "u1"
                       areaId := some "a1" }]
    blocks := [] }

/-- A store whose only unit is *inactive* and whose only reservation is an
outstanding `AWAITING_CHECKIN` booking by `ana@ex.com`. -/
def c4Store : Store :=
  { units := [{ id := "u1", name := "Mane", slug := "mane", isActive := false }]
    areas := []
    reservations := [{ id := "r1"
                       fullName := "Ana Silva"
                       people := 2
                       kids := 0
                       reservationDate := { day := { y := 2026, m := 5, d := 10 }, hr := 13, mi := 0 }
                       status := ReservationStatus.AWAITING_CHECKIN
                       unitId := some "u1"
                       areaId := some "a1"
                       email := some "ana@ex.com" }]
    blocks := [] }

/-- A well-formed public create request naming the inactive unit of
`c4Store` from the duplicate contact `ana@ex.com`. -/
def c4Req : CreateRequest :=
  { fullName := "Ana Silva"
    people := 2
    kids := 0
    reservationDate := some { day := { y := 2026, m := 5, d := 11 }, hr := 13, mi := 0 }
    email := some "ana@ex.com"
    unitId := some "u1"
    areaId := some "a1" }

/-- The prior reservation being updated in the C3 scenarios: 4 people at
13:00 (AFTERNOON) on 2026-05-10. -/
def c3Prev : Reservation :=
  { id := "r1"
    fullName := "Ana Silva"
    people := 4
    kids := 0
    reservationDate := { day := { y := 2026, m := 5, d := 10 }, hr := 13, mi := 0 }
    status := ReservationStatus.AWAITING_CHECKIN
    unitId := some "u1"
    areaId := some "a1" }

/-- Store for the C3 scenarios: active unit, `availArea` (afternoon
capacity 10), and `c3Prev` as the only reservation. -/
def c3Store : Store :=
  { units := [{ id := "u1", name := "Mane", slug := "mane", isActive := true }]
    areas := [availArea]
    reservations := [c3Prev]
    blocks := [] }

/-- Update body moving `c3Prev` to 8 people at **14:00** — same unit, area,
day and derived period (AFTERNOON), different exact time. -/
def c3Body : AdminBody :=
  { people := 8
    kids := 0
    reservationDate := some { day := { y := 2026, m := 5, d := 10 }, hr := 14, mi := 0 }
    unitId := some "u1"
    areaId := some "a1" }

/-- Update body growing `c3Prev` to 8 people at the unchanged time
13:00. -/
def c3wBody : AdminBody :=
  { people := 8
    kids := 0
    reservationDate := some { day := { y := 2026, m := 5, d := 10 }, hr := 13, mi := 0 }
    unitId := some "u1"
    areaId := some "a1" }

/- ---------------- Arithmetic/format lemmas ---------------- -/

/-- Digit characters are digits. -/
theorem digitCh_isDigit (n : Nat) : (digitCh n).isDigit = true := by
  have h : n % 10 < 10 := Nat.mod_lt _ (by omega)
  have H : ∀ k < 10, (Char.ofNat (48 + k)).isDigit = true := by decide
  exact H _ h

/-- Digit characters decode to the digit. -/
theorem digitVal_digitCh (n : Nat) : digitVal (digitCh n) = n % 10 := by
  have h : n % 10 < 10 := Nat.mod_lt _ (by omega)
  have H : ∀ k < 10, digitVal (Char.ofNat (48 + k)) = k := by decide
  exact H _ h

/-- Digit characters are not `':'`. -/
theorem digitCh_ne_colon (n : Nat) : digitCh n ≠ ':' := by
  have h : n % 10 < 10 := Nat.mod_lt _ (by omega)
  have H : ∀ k < 10, Char.ofNat (48 + k) ≠ ':' := by decide
  exact H _ h

/-- Splitting a well-formed `HH:mm` character list at the colon. -/
theorem splitCols_hhmm (a b c d : Char) (ha : a ≠ ':') (hb : b ≠ ':')
    (hc : c ≠ ':') (hd : d ≠ ':') :
    splitCols [a, b, ':', c, d] = [[a, b], [c, d]] := by
  simp [splitCols, ha, hb, hc, hd]

/-- `Number` on a two-digit string. -/
theorem jsNumOr0_two (x y : Char) (hx : x.isDigit = true) (hy : y.isDigit = true) :
    jsNumOr0 [x, y] = 10 * digitVal x + digitVal y := by
  simp [jsNumOr0, digitsToNat, hx, hy]
  ring

/-- `HH:mm` renderings always pass the `^\d{2}:\d{2}$` test. -/
theorem isValidHHmm_fmtHHmm (h m : Nat) : isValidHHmm (fmtHHmm h m) = true := by
  simp [isValidHHmm, fmtHHmm, digitCh_isDigit]

/-- The string classifier on a rendered `HH:mm` agrees with the `Date`
classifier at that hour and minute (any calendar day). -/
theorem clampToBusinessWindow_fmtHHmm (day : DayDate) (h m : Nat)
    (hh : h < 100) (hm : m < 100) :
    clampToBusinessWindow (fmtHHmm h m) =
      getPeriodFromDate { day := day, hr := h, mi := m } := by
  have hsplit := splitCols_hhmm (digitCh (h / 10)) (digitCh (h % 10))
    (digitCh (m / 10)) (digitCh (m % 10)) (digitCh_ne_colon _)
    (digitCh_ne_colon _) (digitCh_ne_colon _) (digitCh_ne_colon _)
  have hhv : jsNumOr0 [digitCh (h / 10), digitCh (h % 10)] = h := by
    rw [jsNumOr0_two _ _ (digitCh_isDigit _) (digitCh_isDigit _),
      digitVal_digitCh, digitVal_digitCh]
    omega
  have hmv : jsNumOr0 [digitCh (m / 10), digitCh (m % 10)] = m := by
    rw [jsNumOr0_two _ _ (digitCh_isDigit _) (digitCh_isDigit _),
      digitVal_digitCh, digitVal_digitCh]
    omega
  simp [clampToBusinessWindow, fmtHHmm, hsplit, hhv, hmv,
    getPeriodFromDate, Timestamp.minutesOfDay]

/-- Digit characters are not `'-'`. -/
theorem digitCh_ne_dash (n : Nat) : digitCh n ≠ '-' := by
  have h : n % 10 < 10 := Nat.mod_lt _ (by omega)
  have H : ∀ k < 10, Char.ofNat (48 + k) ≠ '-' := by decide
  exact H _ h

/-- Strict parsing inverts `YYYY-MM-DD` rendering on any real calendar
day. -/
theorem parseDateStrict_fmtYMD (dy : DayDate) (hy : dy.y < 10000)
    (hm1 : 1 ≤ dy.m) (hm2 : dy.m ≤ 12) (hd1 : 1 ≤ dy.d)
    (hd2 : dy.d ≤ daysInMonth dy.y dy.m) :
    parseDateStrict (fmtYMD dy) = some { day := dy, hr := 0, mi := 0 } := by
  have hyv : digitsToNat [digitCh (dy.y / 1000), digitCh (dy.y / 100),
      digitCh (dy.y / 10), digitCh dy.y] = dy.y := by
    simp [digitsToNat, digitVal_digitCh]
    omega
  have hmv : digitsToNat [digitCh (dy.m / 10), digitCh dy.m] = dy.m := by
    simp [digitsToNat, digitVal_digitCh]
    omega
  have h31 : daysInMonth dy.y dy.m ≤ 31 := by
    unfold daysInMonth
    split_ifs <;> omega
  have hdv : digitsToNat [digitCh (dy.d / 10), digitCh dy.d] = dy.d := by
    simp [digitsToNat, digitVal_digitCh]
    omega
  simp [parseDateStrict, fmtYMD, digitCh_isDigit, hyv, hmv, hdv,
    hm1, hm2, hd1, hd2]

/-- `YYYY-MM-DD` rendering is injective on real calendar days. -/
theorem fmtYMD_inj (a b : DayDate) (ha : a.y < 10000 ∧ 1 ≤ a.m ∧ a.m ≤ 12 ∧
      1 ≤ a.d ∧ a.d ≤ daysInMonth a.y a.m)
    (hb : b.y < 10000 ∧ 1 ≤ b.m ∧ b.m ≤ 12 ∧ 1 ≤ b.d ∧ b.d ≤ daysInMonth b.y b.m)
    (h : fmtYMD a = fmtYMD b) : a = b := by
  have h1 := parseDateStrict_fmtYMD a ha.1 ha.2.1 ha.2.2.1 ha.2.2.2.1 ha.2.2.2.2
  have h2 := parseDateStrict_fmtYMD b hb.1 hb.2.1 hb.2.2.1 hb.2.2.2.1 hb.2.2.2.2
  rw [h, h2] at h1
  cases h1
  rfl

/-- Digit characters are injective modulo 10. -/
theorem digitCh_inj (a b : Nat) (h : digitCh a = digitCh b) : a % 10 = b % 10 := by
  have h1 := digitVal_digitCh a
  have h2 := digitVal_digitCh b
  rw [h, h2] at h1
  omega

/-- `HH:mm` rendering is injective below 100. -/
theorem fmtHHmm_inj (h m h2 m2 : Nat) (hh : h < 100) (hm : m < 100)
    (hh2 : h2 < 100) (hm2 : m2 < 100) (he : fmtHHmm h m = fmtHHmm h2 m2) :
    h = h2 ∧ m = m2 := by
  have hl : [digitCh (h / 10), digitCh (h % 10), ':', digitCh (m / 10), digitCh (m % 10)] =
      [digitCh (h2 / 10), digitCh (h2 % 10), ':', digitCh (m2 / 10), digitCh (m2 % 10)] := by
    have := congrArg String.data he
    simpa [fmtHHmm] using this
  have e1 := digitCh_inj _ _ (List.head_eq_of_cons_eq hl)
  have hl2 := List.tail_eq_of_cons_eq hl
  have e2 := digitCh_inj _ _ (List.head_eq_of_cons_eq hl2)
  have hl3 := List.tail_eq_of_cons_eq (List.tail_eq_of_cons_eq hl2)
  have e3 := digitCh_inj _ _ (List.head_eq_of_cons_eq hl3)
  have hl4 := List.tail_eq_of_cons_eq hl3
  have e4 := digitCh_inj _ _ (List.head_eq_of_cons_eq hl4)
  omega

/- ---------------- List machinery ---------------- -/

/-- Sorting by name neither adds nor removes areas. -/
theorem mem_sortAreasByName (a : Area) (l : List Area) :
    a ∈ sortAreasByName l ↔ a ∈ l :=
  (List.perm_insertionSort (fun x y => x.name ≤ y.name) l).mem_iff

/-- Sorting by name keeps area ids duplicate-free. -/
theorem nodup_ids_sortAreasByName (l : List Area)
    (h : (l.map fun a => a.id).Nodup) :
    ((sortAreasByName l).map fun a => a.id).Nodup :=
  (((List.perm_insertionSort (fun x y => x.name ≤ y.name) l).map
    (fun a => a.id)).symm).nodup h

/-- Filtering keeps area ids duplicate-free. -/
theorem nodup_ids_filter (p : Area → Bool) (l : List Area)
    (h : (l.map fun a => a.id).Nodup) :
    ((l.filter p).map fun a => a.id).Nodup :=
  ((List.filter_sublist l).map (fun a => a.id)).nodup h

/-- Finding by id in an id-preserving image of a duplicate-free list locates
exactly the image of the sought element. -/
theorem find?_map_by_id (f : Area → AreaPublicDTO) (l : List Area)
    (hf : ∀ x ∈ l, (f x).id = x.id) (hnd : (l.map fun a => a.id).Nodup)
    (a : Area) (ha : a ∈ l) :
    (l.map f).find? (fun x => x.id = a.id) = some (f a) := by
  induction l with
  | nil => cases ha
  | cons b t ih =>
    simp only [List.map_cons, List.find?_cons]
    rcases List.mem_cons.mp ha with hab | hat
    · subst hab
      have : (f a).id = a.id := hf a (List.mem_cons_self a t)
      simp [this]
    · have hbid : b.id ≠ a.id := by
        intro he
        have : a.id ∈ t.map fun x => x.id := List.mem_map_of_mem _ hat
        rw [← he] at this
        exact (List.nodup_cons.mp (by simpa using hnd)).1 this
      have hfb : (f b).id = b.id := hf b (List.mem_cons_self b t)
      have hcond : decide ((f b).id = a.id) = false := by
        simp [hfb, hbid]
      rw [hcond]
      exact ih (fun x hx => hf x (List.mem_cons_of_mem _ hx))
        (by simpa using (List.nodup_cons.mp (by simpa using hnd)).2) hat

/-- A falsy nullable string is `null`/`undefined` or empty. -/
theorem truthyOpt_eq_false (o : Option String) :
    truthyOpt o = false ↔ o = none ∨ o = some "" := by
  cases o with
  | none => simp [truthyOpt]
  | some s => simp [truthyOpt]

/-- The two-set block partition of `listByUnitPublic` (`blockedAll` for
`areaId` falsy, plus the set of blocked area ids) decides exactly
"some row passing the block query is unit-wide or names this area" — given
that no block row stores an empty-string area id. -/
theorem blockedCalc_eq (bl : List ReservationBlock) (q : ReservationBlock → Bool)
    (aid : String) (hwf : ∀ b ∈ bl, b.areaId ≠ some "") :
    ((bl.filter q).any (fun b => !truthyOpt b.areaId) ||
      (((bl.filter q).filter (fun b => truthyOpt b.areaId)).map
        (fun b => b.areaId.getD "")).any (fun s => s = aid))
    = bl.any (fun b => q b && (b.areaId = none || b.areaId = some aid)) := by
  induction bl with
  | nil => simp
  | cons b t ih =>
    have hwt : ∀ x ∈ t, x.areaId ≠ some "" := fun x hx => hwf x (List.mem_cons_of_mem _ hx)
    by_cases hq : q b
    · have e1 : List.filter q (b :: t) = b :: List.filter q t := by
        simp [List.filter_cons, hq]
      by_cases htr : truthyOpt b.areaId = true
      · rcases hsome : b.areaId with _ | s
        · rw [hsome] at htr; simp [truthyOpt] at htr
        · have e2 : ((b :: List.filter q t).any fun x => !truthyOpt x.areaId)
              = (List.filter q t).any fun x => !truthyOpt x.areaId := by
            simp [htr]
          have e3 : List.filter (fun x => truthyOpt x.areaId) (b :: List.filter q t)
              = b :: List.filter (fun x => truthyOpt x.areaId) (List.filter q t) := by
            simp [List.filter_cons, htr]
          have e4 : (q b && (decide (b.areaId = none) || decide (b.areaId = some aid)))
              = decide (s = aid) := by
            simp [hq, hsome]
          rw [e1, e2, e3, List.map_cons, List.any_cons, List.any_cons, e4,
            ← ih hwt, hsome]
          simp only [Option.getD_some]
          cases (List.filter q t).any (fun x => !truthyOpt x.areaId) <;>
            cases (((List.filter q t).filter fun x => truthyOpt x.areaId).map
              (fun x => x.areaId.getD "")).any (fun x => decide (x = aid)) <;>
            cases decide (s = aid) <;> rfl
      · have hnone : b.areaId = none := by
          rcases (truthyOpt_eq_false b.areaId).mp (by simpa using htr) with h | h
          · exact h
          · exact absurd h (hwf b (List.mem_cons_self b t))
        have e2 : ((b :: List.filter q t).any fun x => !truthyOpt x.areaId) = true := by
          simp only [List.any_cons, hnone]
          simp [truthyOpt]
        rw [e1]
        simp [List.any_cons, hnone, truthyOpt, hq]
    · have e1 : List.filter q (b :: t) = List.filter q t := by
        simp [List.filter_cons, hq]
      have e4 : (q b && (decide (b.areaId = none) || decide (b.areaId = some aid)))
          = false := by
        simp [hq]
      rw [e1, List.any_cons, e4, ← ih hwt]
      simp

/-- The aggregation row filter of the code equals the spec's
`countsToward` predicate on the same window. -/
theorem reservationCounted_eq_spec (day : DayDate) (p : Period) (aid : String)
    (r : Reservation) :
    reservationCounted (specPeriodWindow day p).1 (specPeriodWindow day p).2 aid r
      = specCountsToward day p aid r := by
  rw [Bool.eq_iff_iff]
  simp only [reservationCounted, specCountsToward, Bool.and_eq_true,
    Bool.or_eq_true, decide_eq_true_eq]
  tauto

/-- The code's per-area `used` sum equals the spec's `used(A, P, D)`. -/
theorem usedInWindow_eq_specUsed (db : Store) (aid : String) (day : DayDate)
    (p : Period) :
    usedInWindow db.reservations (specPeriodWindow day p).1
        (specPeriodWindow day p).2 aid = specUsed db aid day p := by
  unfold usedInWindow specUsed
  rw [List.filter_congr (fun r _ => reservationCounted_eq_spec day p aid r)]

/-- The full-day aggregation row filter equals the spec's whole-day
`countsToward`. -/
theorem reservationCounted_eq_specDay (day : DayDate) (aid : String)
    (r : Reservation) :
    reservationCounted { day := day, hr := 0, mi := 0 }
        { day := day, hr := 23, mi := 59 } aid r
      = specDayCountsToward day aid r := by
  rw [Bool.eq_iff_iff]
  simp only [reservationCounted, specDayCountsToward, Bool.and_eq_true,
    Bool.or_eq_true, decide_eq_true_eq]
  tauto

/-- The code's whole-day per-area `used` sum equals the spec's. -/
theorem usedInWindow_eq_specDayUsed (db : Store) (aid : String) (day : DayDate) :
    usedInWindow db.reservations { day := day, hr := 0, mi := 0 }
        { day := day, hr := 23, mi := 59 } aid = specDayUsed db aid day := by
  unfold usedInWindow specDayUsed
  rw [List.filter_congr (fun r _ => reservationCounted_eq_specDay day aid r)]

/-- `periodWindow` at a midnight base produces exactly the spec window of
the classified period, with that period. -/
theorem periodWindow_eq_spec (base : Timestamp) (s : String) :
    periodWindow base s =
      { fromT := (specPeriodWindow base.day (clampToBusinessWindow s)).1
        toT := (specPeriodWindow base.day (clampToBusinessWindow s)).2
        period := clampToBusinessWindow s } := by
  unfold periodWindow getPeriodFromHM
  cases h : clampToBusinessWindow s <;>
    simp [h, specPeriodWindow, atTime, endOfDay]

/-- The period branch's two-set blocked computation decides the spec's
qualifying-block predicate. -/
theorem blocked_eq_spec (db : Store) (u aid : String) (base : Timestamp)
    (p : Period) (hwf : ∀ b ∈ db.blocks, b.areaId ≠ some "") :
    ((db.blocks.filter (periodBlockRow u base p)).any (fun b => !truthyOpt b.areaId) ||
      (((db.blocks.filter (periodBlockRow u base p)).filter
        (fun b => truthyOpt b.areaId)).map (fun b => b.areaId.getD "")).any
        (fun s => s = aid))
    = specBlocked db u aid base.day p := by
  rw [blockedCalc_eq _ _ _ hwf]
  rfl

/-- The whole-day branch's two-set blocked computation decides the spec's
ALL_DAY block predicate. -/
theorem dayBlocked_eq_spec (db : Store) (u aid : String) (base : Timestamp)
    (hwf : ∀ b ∈ db.blocks, b.areaId ≠ some "") :
    ((db.blocks.filter (allDayBlockRow u base)).any (fun b => !truthyOpt b.areaId) ||
      (((db.blocks.filter (allDayBlockRow u base)).filter
        (fun b => truthyOpt b.areaId)).map (fun b => b.areaId.getD "")).any
        (fun s => s = aid))
    = specDayBlocked db u aid base.day := by
  rw [blockedCalc_eq _ _ _ hwf]
  rfl

/-- Each area of the sorted selection contributes to the period branch
exactly its DTO with `remaining`/`available`/`isAvailable` given by the
spec's `remaining(A, P, D)` formula. -/
theorem listPeriodBranch_mem_spec (db : Store) (u : String) (base : Timestamp)
    (s : String) (sorted : List Area) (a : Area) (ha : a ∈ sorted)
    (hwf : ∀ b ∈ db.blocks, b.areaId ≠ some "") (hu : a.unitId = u) :
    ({ areaToDTO a with
        remaining := some (specRemaining db a base.day (clampToBusinessWindow s))
        available := some (specRemaining db a base.day (clampToBusinessWindow s))
        isAvailable := some (decide (0 < specRemaining db a base.day
          (clampToBusinessWindow s))) }
      : AreaPublicDTO) ∈ listPeriodBranch db u base s sorted := by
  simp only [listPeriodBranch, periodWindow_eq_spec]
  apply List.mem_map.mpr
  refine ⟨a, ha, ?_⟩
  rw [blocked_eq_spec db u a.id base (clampToBusinessWindow s) hwf,
    usedInWindow_eq_specUsed]
  unfold specRemaining
  rw [hu]
  cases clampToBusinessWindow s <;> simp [specCapacity]

/-- Each area of the sorted selection contributes to the whole-day branch
exactly its DTO with the whole-day `remaining` formula. -/
theorem listWholeDayBranch_mem_spec (db : Store) (u : String) (base : Timestamp)
    (sorted : List Area) (a : Area) (ha : a ∈ sorted)
    (hwf : ∀ b ∈ db.blocks, b.areaId ≠ some "") (hu : a.unitId = u) :
    ({ areaToDTO a with
        remaining := some (specDayRemaining db a base.day)
        available := some (specDayRemaining db a base.day)
        isAvailable := some (decide (0 < specDayRemaining db a base.day)) }
      : AreaPublicDTO) ∈ listWholeDayBranch db u base sorted := by
  simp only [listWholeDayBranch]
  apply List.mem_map.mpr
  refine ⟨a, ha, ?_⟩
  rw [dayBlocked_eq_spec db u a.id base hwf]
  have : usedInWindow db.reservations (startOfDay base) (endOfDay base) a.id
      = specDayUsed db a.id base.day := usedInWindow_eq_specDayUsed db a.id base.day
  rw [this]
  unfold specDayRemaining
  rw [hu]

/-- Claim C1 (code_bug evidence).  The spec mandates that the sum of
admitted party sizes never exceed the period capacity under any
interleaving of concurrent public create requests.  The route's
check-then-insert is not atomic: on `raceStore` (afternoon capacity 1) with
two size-1 requests, the interleaving check₁, check₂, insert₁, insert₂
admits both — total admitted size 2 and 2 seats committed in the afternoon
window, exceeding the capacity 1 — while the serialized schedule
check₁, insert₁, check₂, insert₂ admits only one. -/
theorem C1_race_oversell :
    admittedSizes raceReqs (raceRun raceReqs raceStore [0, 1, 0, 1]) = 2 ∧
    usedInWindow (raceRun raceReqs raceStore [0, 1, 0, 1]).db.reservations
      { day := { y := 2026, m := 5, d := 10 }, hr := 12, mi := 0 }
      { day := { y := 2026, m := 5, d := 10 }, hr := 17, mi := 29 } "a1" = 2 ∧
    admittedSizes raceReqs (raceRun raceReqs raceStore [0, 0, 1, 1]) = 1 := by
  decide

/-- Claim C7.  For every timestamp with `mins = hour*60 + minute`:
`mins < 720` classifies AFTERNOON, `720 ≤ mins < 1050` classifies
AFTERNOON, `1050 ≤ mins` classifies NIGHT — and the areas service's
HH:mm-string classifier agrees with the public route's Date classifier on
the rendered `HH:mm` of every such timestamp. -/
theorem C7_classifiers_agree (day : DayDate) (h m : Nat) (hh : h < 24)
    (hm : m < 60) :
    (h * 60 + m < 720 →
      getPeriodFromDate { day := day, hr := h, mi := m } = Period.AFTERNOON) ∧
    (720 ≤ h * 60 + m → h * 60 + m < 1050 →
      getPeriodFromDate { day := day, hr := h, mi := m } = Period.AFTERNOON) ∧
    (1050 ≤ h * 60 + m →
      getPeriodFromDate { day := day, hr := h, mi := m } = Period.NIGHT) ∧
    clampToBusinessWindow (fmtHHmm h m) =
      getPeriodFromDate { day := day, hr := h, mi := m } := by
  refine ⟨?_, ?_, ?_, clampToBusinessWindow_fmtHHmm day h m (by omega) (by omega)⟩ <;>
    · intros
      simp only [getPeriodFromDate, Timestamp.minutesOfDay, EVENING_CUTOFF_MIN]
      split_ifs <;> first | rfl | omega

/-- Witness for C7 at 13:00 (and implicitly any concrete input): the
hypotheses hold at `h = 13`, `m = 0` and the conclusion follows by applying
the theorem. -/
theorem C7_classifiers_agree_witness :
    (13 * 60 + 0 < 720 →
      getPeriodFromDate { day := { y := 2026, m := 5, d := 10 }, hr := 13, mi := 0 }
        = Period.AFTERNOON) ∧
    (720 ≤ 13 * 60 + 0 → 13 * 60 + 0 < 1050 →
      getPeriodFromDate { day := { y := 2026, m := 5, d := 10 }, hr := 13, mi := 0 }
        = Period.AFTERNOON) ∧
    (1050 ≤ 13 * 60 + 0 →
      getPeriodFromDate { day := { y := 2026, m := 5, d := 10 }, hr := 13, mi := 0 }
        = Period.NIGHT) ∧
    clampToBusinessWindow (fmtHHmm 13 0) =
      getPeriodFromDate { day := { y := 2026, m := 5, d := 10 }, hr := 13, mi := 0 } :=
  C7_classifiers_agree { y := 2026, m := 5, d := 10 } 13 0 (by decide) (by decide)

/-- Every generated code has six characters. -/
theorem genCode6_length (rand : Nat → Fin 32) (i : Nat) :
    (genCode6 rand i).data.length = 6 := by
  simp [genCode6]

/-- Every character of a generated code is drawn from the 32-symbol
alphabet. -/
theorem genCode6_alphabet (rand : Nat → Fin 32) (i : Nat) (c : Char)
    (hc : c ∈ (genCode6 rand i).data) : c ∈ ALPHABET := by
  simp only [genCode6, List.mem_map] at hc
  obtain ⟨j, _, rfl⟩ := hc
  have h32 : ALPHABET.length = 32 := rfl
  have hlt : ((rand (6 * i + j)).val) < ALPHABET.length := by
    rw [h32]
    exact (rand (6 * i + j)).isLt
  rw [List.getD_eq_getElem _ _ hlt]
  apply List.getElem_mem

/-- The retry loop performs at most `fuel` collision checks. -/
theorem genUniqueAux_checks_le (e : String → Bool) (rand : Nat → Fin 32) :
    ∀ n i, (genUniqueAux e rand i n).checksPerformed ≤ n := by
  intro n
  induction n with
  | zero => intro i; simp [genUniqueAux]
  | succ k ih =>
    intro i
    simp only [genUniqueAux]
    split
    · have := ih (i + 1)
      simp only []
      omega
    · simp

/-- The retry loop always returns the output of some `genCode6` call with
index at most `start + fuel`. -/
theorem genUniqueAux_code_shape (e : String → Bool) (rand : Nat → Fin 32) :
    ∀ n i, ∃ j, j ≤ i + n ∧ (genUniqueAux e rand i n).code = genCode6 rand j := by
  intro n
  induction n with
  | zero => intro i; exact ⟨i, by omega, rfl⟩
  | succ k ih =>
    intro i
    simp only [genUniqueAux]
    split
    · obtain ⟨j, hj, hc⟩ := ih (i + 1)
      exact ⟨j, by omega, hc⟩
    · exact ⟨i, by omega, rfl⟩

/-- If every attempt collides, the loop exhausts its fuel and returns the
next fresh code unverified. -/
theorem genUniqueAux_exhaust (e : String → Bool) (rand : Nat → Fin 32) :
    ∀ n i, (∀ j, j < n → e (genCode6 rand (i + j)) = true) →
      genUniqueAux e rand i n =
        { code := genCode6 rand (i + n), checksPerformed := n, verified := false } := by
  intro n
  induction n with
  | zero => intro i _; simp [genUniqueAux]
  | succ k ih =>
    intro i hall
    have h0 : e (genCode6 rand i) = true := by
      have := hall 0 (by omega)
      simpa using this
    simp only [genUniqueAux, h0, if_pos]
    have := ih (i + 1) (fun j hj => by
      have := hall (j + 1) (by omega)
      simpa [Nat.add_assoc, Nat.add_comm 1 j] using this)
    rw [this]
    have harg : i + 1 + k = i + (k + 1) := by omega
    simp [harg]

/-- Claim C9.  `generateUniqueReservationCode` performs at most 8
collision-checked attempts; every attempt — and hence the returned code —
is a 6-character string over the 32-symbol alphabet (no `0`, `O`, `1`,
`I`); and when all 8 attempts collide with persisted codes it returns the
9th freshly generated code without verifying it, instead of raising or
looping. -/
theorem C9_code_generator (existsCode : String → Bool) (rand : Nat → Fin 32) :
    (generateUniqueReservationCode existsCode rand).checksPerformed ≤ 8 ∧
    (∀ i, (genCode6 rand i).data.length = 6 ∧
      ∀ c ∈ (genCode6 rand i).data, c ∈ ALPHABET) ∧
    (∃ j, j ≤ 8 ∧
      (generateUniqueReservationCode existsCode rand).code = genCode6 rand j) ∧
    ((∀ j, j < 8 → existsCode (genCode6 rand j) = true) →
      generateUniqueReservationCode existsCode rand =
        { code := genCode6 rand 8, checksPerformed := 8, verified := false }) := by
  refine ⟨genUniqueAux_checks_le existsCode rand 8 0,
    fun i => ⟨genCode6_length rand i, fun c hc => genCode6_alphabet rand i c hc⟩,
    ?_, ?_⟩
  · have := genUniqueAux_code_shape existsCode rand 8 0
    simpa [generateUniqueReservationCode] using this
  · intro hall
    have := genUniqueAux_exhaust existsCode rand 8 0 (fun j hj => by
      simpa using hall j hj)
    simpa [generateUniqueReservationCode] using this

/-- Witness for C9: the always-colliding store and the constant random
stream — 8 checks are performed, the code is 6 characters over the
alphabet, and the unverified 9th code is returned. -/
theorem C9_code_generator_witness :
    (generateUniqueReservationCode (fun _ => true) (fun _ => ⟨0, by omega⟩)).checksPerformed ≤ 8 ∧
    (∀ i, (genCode6 (fun _ => ⟨0, by omega⟩) i).data.length = 6 ∧
      ∀ c ∈ (genCode6 (fun _ => ⟨0, by omega⟩) i).data, c ∈ ALPHABET) ∧
    (∃ j, j ≤ 8 ∧
      (generateUniqueReservationCode (fun _ => true) (fun _ => ⟨0, by omega⟩)).code
        = genCode6 (fun _ => ⟨0, by omega⟩) j) ∧
    ((∀ j, j < 8 → (fun (_ : String) => true) (genCode6 (fun _ => ⟨0, by omega⟩) j) = true) →
      generateUniqueReservationCode (fun _ => true) (fun _ => ⟨0, by omega⟩) =
        { code := genCode6 (fun _ => ⟨0, by omega⟩) 8, checksPerformed := 8,
          verified := false }) :=
  C9_code_generator (fun _ => true) (fun _ => ⟨0, by omega⟩)

/-- Claim C2.  Querying availability with a time: for every active area `A`
of the queried unit, the returned DTO carries
`remaining = max(0, capacity(A,P) − used(A,P,D))` — where `used` sums
`people + kids` over exactly the reservations on `A` with status
`AWAITING_CHECKIN` or `CHECKED_IN` dated inside the derived window of `P`
on `D` — forced to `0` exactly when a PERIOD-mode block of the unit dated
within `D`, with period `P` or `ALL_DAY`, unit-wide (`areaId` null) or for
`A`, exists. -/
theorem C2_period_availability (db : Store) (now : Timestamp)
    (u dstr tstr : String) (base : Timestamp) (a : Area)
    (hwf : WFStore db) (ha : a ∈ db.areas) (hu : a.unitId = u)
    (hact : a.isActive = true) (hune : u ≠ "") (hdne : dstr ≠ "")
    (htne : tstr ≠ "") (hparse : parseDateStrict dstr = some base)
    (ht : isValidHHmm tstr = true) :
    ∃ dto ∈ listByUnitPublic db now u (some dstr) (some tstr),
      dto.id = a.id ∧
      dto.remaining =
        some (specRemaining db a base.day (clampToBusinessWindow tstr)) ∧
      dto.available = dto.remaining ∧
      dto.isAvailable =
        some (decide (0 < specRemaining db a base.day (clampToBusinessWindow tstr))) := by
  have h1 : listByUnitPublic db now u (some dstr) (some tstr)
      = listPeriodBranch db u base tstr
          (sortAreasByName (db.areas.filter (fun x => x.unitId = u && x.isActive))) := by
    simp [listByUnitPublic, hune, truthyOpt, hdne, htne, hparse, ht]
  rw [h1]
  have hmem : a ∈ sortAreasByName (db.areas.filter (fun x => x.unitId = u && x.isActive)) :=
    (mem_sortAreasByName a _).mpr (List.mem_filter.mpr ⟨ha, by simp [hu, hact]⟩)
  exact ⟨_, listPeriodBranch_mem_spec db u base tstr _ a hmem hwf.2.2 hu,
    rfl, rfl, rfl, rfl⟩

/-- Witness for C2: on `availStore` (capacity 10, one 6+2 reservation at
13:00), the 13:00 availability query returns the area's DTO with
`remaining = max(0, 10 − 8) = 2`. -/
theorem C2_period_availability_witness :
    (∃ dto ∈ listByUnitPublic availStore
        { day := { y := 2026, m := 5, d := 10 }, hr := 9, mi := 0 } "u1"
        (some "2026-05-10") (some "13:00"),
      dto.id = availArea.id ∧
      dto.remaining = some (specRemaining availStore availArea
        { y := 2026, m := 5, d := 10 } (clampToBusinessWindow "13:00")) ∧
      dto.available = dto.remaining ∧
      dto.isAvailable = some (decide (0 < specRemaining availStore availArea
        { y := 2026, m := 5, d := 10 } (clampToBusinessWindow "13:00")))) ∧
    specRemaining availStore availArea { y := 2026, m := 5, d := 10 }
      (clampToBusinessWindow "13:00") = 2 :=
  ⟨C2_period_availability availStore
      { day := { y := 2026, m := 5, d := 10 }, hr := 9, mi := 0 }
      "u1" "2026-05-10" "13:00"
      { day := { y := 2026, m := 5, d := 10 }, hr := 0, mi := 0 } availArea
      (by decide) (by decide) rfl rfl (by decide) (by decide) (by decide)
      (by decide) (by decide),
    by decide⟩

/-- Claim C6.  Querying availability with a date but no time: each active
area's DTO carries the whole-day `remaining`, computed from capacity
`(capacityAfternoon ?? 0) + (capacityNight ?? 0)`, the full-calendar-day
aggregation window, and forced to 0 only by qualifying ALL_DAY blocks; and
adding any block whose period is not ALL_DAY (an AFTERNOON- or
NIGHT-specific block) never changes the whole-day result. -/
theorem C6_whole_day_availability (db : Store) (now : Timestamp)
    (u dstr : String) (base : Timestamp) (a : Area)
    (hwf : WFStore db) (ha : a ∈ db.areas) (hu : a.unitId = u)
    (hact : a.isActive = true) (hune : u ≠ "") (hdne : dstr ≠ "")
    (hparse : parseDateStrict dstr = some base) :
    (∃ dto ∈ listByUnitPublic db now u (some dstr) none,
      dto.id = a.id ∧
      dto.remaining = some (specDayRemaining db a base.day) ∧
      dto.available = dto.remaining ∧
      dto.isAvailable = some (decide (0 < specDayRemaining db a base.day))) ∧
    (∀ b : ReservationBlock, b.period ≠ ReservationBlockPeriod.ALL_DAY →
      listByUnitPublic { db with blocks := b :: db.blocks } now u (some dstr) none
        = listByUnitPublic db now u (some dstr) none) := by
  have h1 : ∀ db2 : Store, listByUnitPublic db2 now u (some dstr) none
      = listWholeDayBranch db2 u base
          (sortAreasByName (db2.areas.filter (fun x => x.unitId = u && x.isActive))) := by
    intro db2
    simp [listByUnitPublic, hune, truthyOpt, hdne, hparse]
  constructor
  · rw [h1 db]
    have hmem : a ∈ sortAreasByName (db.areas.filter (fun x => x.unitId = u && x.isActive)) :=
      (mem_sortAreasByName a _).mpr (List.mem_filter.mpr ⟨ha, by simp [hu, hact]⟩)
    exact ⟨_, listWholeDayBranch_mem_spec db u base _ a hmem hwf.2.2 hu,
      rfl, rfl, rfl, rfl⟩
  · intro b hb
    rw [h1 db, h1 { db with blocks := b :: db.blocks }]
    have hrow : allDayBlockRow u base b = false := by
      simp [allDayBlockRow, hb]
    have hfil : List.filter (allDayBlockRow u base) (b :: db.blocks)
        = List.filter (allDayBlockRow u base) db.blocks := by
      simp [List.filter_cons, hrow]
    simp only [listWholeDayBranch, hfil]

/-- Witness for C6: the whole-day query on `availStore` reports
`remaining = max(0, (10 + 8) − 8) = 10`, and consing an AFTERNOON-specific
block (shown by applying the theorem) leaves the whole-day result
unchanged. -/
theorem C6_whole_day_availability_witness :
    ((∃ dto ∈ listByUnitPublic availStore
        { day := { y := 2026, m := 5, d := 10 }, hr := 9, mi := 0 } "u1"
        (some "2026-05-10") none,
      dto.id = availArea.id ∧
      dto.remaining = some (specDayRemaining availStore availArea
        { y := 2026, m := 5, d := 10 }) ∧
      dto.available = dto.remaining ∧
      dto.isAvailable = some (decide (0 < specDayRemaining availStore availArea
        { y := 2026, m := 5, d := 10 }))) ∧
    (∀ b : ReservationBlock, b.period ≠ ReservationBlockPeriod.ALL_DAY →
      listByUnitPublic { availStore with blocks := b :: availStore.blocks }
          { day := { y := 2026, m := 5, d := 10 }, hr := 9, mi := 0 } "u1"
          (some "2026-05-10") none
        = listByUnitPublic availStore
          { day := { y := 2026, m := 5, d := 10 }, hr := 9, mi := 0 } "u1"
          (some "2026-05-10") none)) ∧
    specDayRemaining availStore availArea { y := 2026, m := 5, d := 10 } = 10 :=
  ⟨C6_whole_day_availability availStore
      { day := { y := 2026, m := 5, d := 10 }, hr := 9, mi := 0 }
      "u1" "2026-05-10"
      { day := { y := 2026, m := 5, d := 10 }, hr := 0, mi := 0 } availArea
      (by decide) (by decide) rfl rfl (by decide) (by decide) (by decide),
    by decide⟩

/-- Boolean calendar order unfolded to arithmetic. -/
theorem dayLtb_iff (a b : DayDate) :
    DayDate.ltb a b = true ↔
      a.y < b.y ∨ (a.y = b.y ∧ (a.m < b.m ∨ (a.m = b.m ∧ a.d < b.d))) := by
  simp [DayDate.ltb]

/-- Claim C5 counterexample.  `c5Store` holds one `AWAITING_CHECKIN`
reservation of 5 people timestamped 09:00 — before noon — on 2026-05-10.
Contrary to the claim, its `people + kids` are **not** included in the
AFTERNOON used total: the aggregation window's 12:00 lower bound excludes
it, so `used = 0` and the 13:00 availability query reports the full
capacity `remaining = 10` (it would report `5` if the reservation were
counted). -/
theorem C5_counterexample :
    usedInWindow c5Store.reservations
      (periodWindow { day := { y := 2026, m := 5, d := 10 }, hr := 0, mi := 0 } "13:00").fromT
      (periodWindow { day := { y := 2026, m := 5, d := 10 }, hr := 0, mi := 0 } "13:00").toT
      "a1" = 0 ∧
    (listByUnitPublic c5Store { day := { y := 2026, m := 5, d := 10 }, hr := 9, mi := 0 }
      "u1" (some "2026-05-10") (some "13:00")).map (fun d => d.remaining) = [some 10] := by
  decide

/-- Claim C5, amended.  A reservation timestamped before 12:00 is *not*
included in the AFTERNOON used total: whenever the classifier assigns the
AFTERNOON window, the aggregation row filter rejects any reservation whose
time of day is before 720 minutes, so such a reservation contributes
nothing to the code's `used` sum. -/
theorem C5_pre_noon_excluded (base : Timestamp) (s : String) (aid : String)
    (r : Reservation) (rest : List Reservation)
    (hs : clampToBusinessWindow s = Period.AFTERNOON)
    (hrm : r.reservationDate.minutesOfDay < 720) :
    reservationCounted (periodWindow base s).fromT (periodWindow base s).toT aid r
      = false ∧
    usedInWindow (r :: rest) (periodWindow base s).fromT (periodWindow base s).toT aid
      = usedInWindow rest (periodWindow base s).fromT (periodWindow base s).toT aid := by
  rw [periodWindow_eq_spec, hs]
  simp only [specPeriodWindow]
  have hkey : ¬(tsLe { day := base.day, hr := 12, mi := 0 } r.reservationDate = true ∧
      tsLe r.reservationDate { day := base.day, hr := 17, mi := 29 } = true) := by
    rintro ⟨h1, h2⟩
    simp only [tsLe, Bool.or_eq_true, Bool.and_eq_true, decide_eq_true_eq,
      Timestamp.minutesOfDay] at h1 h2
    rcases h1 with h1 | ⟨hd1, hm1⟩
    · rcases h2 with h2 | ⟨hd2, hm2⟩
      · rw [dayLtb_iff] at h1 h2
        omega
      · rw [hd2, dayLtb_iff] at h1
        omega
    · simp only [Timestamp.minutesOfDay] at hrm
      omega
  have hrc : reservationCounted { day := base.day, hr := 12, mi := 0 }
      { day := base.day, hr := 17, mi := 29 } aid r = false := by
    cases ht1 : tsLe { day := base.day, hr := 12, mi := 0 } r.reservationDate
    · simp [reservationCounted, ht1]
    · have ht2 : tsLe r.reservationDate { day := base.day, hr := 17, mi := 29 } = false := by
        cases ht2 : tsLe r.reservationDate { day := base.day, hr := 17, mi := 29 }
        · rfl
        · exact absurd ⟨ht1, ht2⟩ hkey
      simp [reservationCounted, ht2]
  exact ⟨hrc, by simp [usedInWindow, List.filter_cons, hrc]⟩

/-- Witness for the amended C5 at the concrete 09:00 reservation of
`c5Store`. -/
theorem C5_pre_noon_excluded_witness :
    reservationCounted
      (periodWindow { day := { y := 2026, m := 5, d := 10 }, hr := 0, mi := 0 } "13:00").fromT
      (periodWindow { day := { y := 2026, m := 5, d := 10 }, hr := 0, mi := 0 } "13:00").toT
      "a1"
      { id := "r1", fullName := "Ana Silva", people := 5, kids := 0,
        reservationDate := { day := { y := 2026, m := 5, d := 10 }, hr := 9, mi := 0 },
        status := ReservationStatus.AWAITING_CHECKIN, unitId := some "u1",
        areaId := some "a1" } = false ∧
    usedInWindow
      [{ id := "r1", fullName := "Ana Silva", people := 5, kids := 0,
         reservationDate := { day := { y := 2026, m := 5, d := 10 }, hr := 9, mi := 0 },
         status := ReservationStatus.AWAITING_CHECKIN, unitId := some "u1",
         areaId := some "a1" }]
      (periodWindow { day := { y := 2026, m := 5, d := 10 }, hr := 0, mi := 0 } "13:00").fromT
      (periodWindow { day := { y := 2026, m := 5, d := 10 }, hr := 0, mi := 0 } "13:00").toT
      "a1"
      = usedInWindow []
        (periodWindow { day := { y := 2026, m := 5, d := 10 }, hr := 0, mi := 0 } "13:00").fromT
        (periodWindow { day := { y := 2026, m := 5, d := 10 }, hr := 0, mi := 0 } "13:00").toT
        "a1" :=
  C5_pre_noon_excluded { day := { y := 2026, m := 5, d := 10 }, hr := 0, mi := 0 }
    "13:00" "a1" _ [] (by decide) (by decide)

/-- The period branch reads only the calendar day of its base timestamp
(every use goes through `at`/`startOfDay`/`endOfDay`). -/
theorem listPeriodBranch_day_only (db : Store) (u : String) (b1 b2 : Timestamp)
    (h : b1.day = b2.day) (s : String) (sorted : List Area) :
    listPeriodBranch db u b1 s sorted = listPeriodBranch db u b2 s sorted := by
  cases b1
  cases b2
  cases h
  rfl

/-- The whole-day branch reads only the calendar day of its base
timestamp. -/
theorem listWholeDayBranch_day_only (db : Store) (u : String) (b1 b2 : Timestamp)
    (h : b1.day = b2.day) (sorted : List Area) :
    listWholeDayBranch db u b1 sorted = listWholeDayBranch db u b2 sorted := by
  cases b1
  cases b2
  cases h
  rfl

/-- Claim C8 counterexample.  `listByUnitPublic` is *not* a function of
`(unitId, date, time)` alone: with the malformed date string `"20260510"`
the source falls back to `new Date()`, so two calls with identical inputs
made at different wall-clock instants (20:00 on 2026-05-10 vs 00:05 on
2026-05-11) and no intervening writes return different outputs (remaining 2
vs 10 on `availStore`). -/
theorem C8_counterexample :
    listByUnitPublic availStore { day := { y := 2026, m := 5, d := 10 }, hr := 20, mi := 0 }
        "u1" (some "20260510") (some "13:00")
      ≠ listByUnitPublic availStore { day := { y := 2026, m := 5, d := 11 }, hr := 0, mi := 5 }
        "u1" (some "20260510") (some "13:00") := by
  decide

/-- Claim C8, amended.  `listByUnitPublic` is a pure function of the store
and its three inputs *plus the wall clock*, and the clock is read only
through the invalid-date fallback: with no date, or with a date string that
passes the strict `YYYY-MM-DD` parse, the output is independent of the
clock — so repeated calls with identical inputs and no intervening writes
return identical output.  (Per `C8_counterexample`, this fails for a
present-but-invalid date string.) -/
theorem C8_deterministic_modulo_clock :
    (∀ (db : Store) (now now2 : Timestamp) (u dstr : String) (t : Option String),
      (parseDateStrict dstr).isSome = true →
      listByUnitPublic db now u (some dstr) t
        = listByUnitPublic db now2 u (some dstr) t) ∧
    (∀ (db : Store) (now now2 : Timestamp) (u : String) (t : Option String),
      listByUnitPublic db now u none t = listByUnitPublic db now2 u none t) := by
  constructor
  · intro db now now2 u dstr t hp
    rcases hps : parseDateStrict dstr with _ | base
    · rw [hps] at hp
      simp at hp
    · simp [listByUnitPublic, hps]
  · intro db now now2 u t
    rfl

/-- Witness for the amended C8: two calls on `availStore` with the valid
date `"2026-05-10"` from different wall-clock instants coincide. -/
theorem C8_deterministic_modulo_clock_witness :
    listByUnitPublic availStore { day := { y := 2026, m := 5, d := 10 }, hr := 20, mi := 0 }
        "u1" (some "2026-05-10") (some "13:00")
      = listByUnitPublic availStore { day := { y := 2026, m := 5, d := 11 }, hr := 0, mi := 5 }
        "u1" (some "2026-05-10") (some "13:00") :=
  C8_deterministic_modulo_clock.1 availStore
    { day := { y := 2026, m := 5, d := 10 }, hr := 20, mi := 0 }
    { day := { y := 2026, m := 5, d := 11 }, hr := 0, mi := 5 }
    "u1" "2026-05-10" (some "13:00") (by decide)

/-- Claim C10 counterexample.  An *empty* time string does not match
`^\d{2}:\d{2}$`, yet the result does not equal the `"12:00"` result: `""`
is falsy in `if (timeHHmm)`, so the whole-day branch runs instead of the
period branch with the `"12:00"` fallback — on `availStore` remaining 10
(whole day) vs 2 (afternoon). -/
theorem C10_counterexample :
    listByUnitPublic availStore { day := { y := 2026, m := 5, d := 10 }, hr := 9, mi := 0 }
        "u1" (some "2026-05-10") (some "")
      ≠ listByUnitPublic availStore { day := { y := 2026, m := 5, d := 10 }, hr := 9, mi := 0 }
        "u1" (some "2026-05-10") (some "12:00") := by
  decide

/-- Claim C10, amended.  `listByUnitPublic` never fails on malformed
inputs, with the empty string excepted from the fallback rules: a
*non-empty* time string failing `^\d{2}:\d{2}$` yields exactly the
`"12:00"` (AFTERNOON) result, and a *non-empty* date string failing the
strict `YYYY-MM-DD` parse silently uses the current day — the result
equals that for any strict date string denoting the clock's calendar
day. -/
theorem C10_malformed_fallbacks :
    (∀ (db : Store) (now : Timestamp) (u : String) (d : Option String) (t : String),
      t ≠ "" → isValidHHmm t = false →
      listByUnitPublic db now u d (some t)
        = listByUnitPublic db now u d (some "12:00")) ∧
    (∀ (db : Store) (now : Timestamp) (u dstr : String) (t : Option String)
      (dstr2 : String),
      dstr ≠ "" → parseDateStrict dstr = none →
      parseDateStrict dstr2 = some { day := now.day, hr := 0, mi := 0 } →
      listByUnitPublic db now u (some dstr) t
        = listByUnitPublic db now u (some dstr2) t) := by
  constructor
  · intro db now u d t htne hinv
    rcases d with _ | ds
    · rfl
    · by_cases hds : ds = ""
      · subst hds
        rfl
      · have h12 : isValidHHmm "12:00" = true := by decide
        simp [listByUnitPublic, truthyOpt, htne, hinv, hds, h12]
  · intro db now u dstr t dstr2 hne hpnone hp2
    have hne2 : dstr2 ≠ "" := by
      intro h
      have hemp : parseDateStrict "" = none := rfl
      rw [h, hemp] at hp2
      cases hp2
    by_cases hu : u = ""
    · simp [listByUnitPublic, hu]
    · have htr1 : truthyOpt (some dstr) = true := by simp [truthyOpt, hne]
      have htr2 : truthyOpt (some dstr2) = true := by simp [truthyOpt, hne2]
      simp only [listByUnitPublic, hpnone, hp2, htr1, htr2, hu,
        Option.getD_some, Option.getD_none, Bool.not_true, Bool.false_eq_true,
        if_false, if_neg, ite_false]
      cases htt : truthyOpt t
      · simp only [htt, Bool.false_eq_true, if_false]
        exact listWholeDayBranch_day_only db u now { day := now.day, hr := 0, mi := 0 } rfl _
      · simp only [htt, if_true]
        exact listPeriodBranch_day_only db u now { day := now.day, hr := 0, mi := 0 } rfl _ _

/-- Witness for the amended C10: the malformed time `"1:00"` behaves as
`"12:00"`, and the malformed date `"bad"` behaves as `"2026-05-10"` when
the clock reads that day. -/
theorem C10_malformed_fallbacks_witness :
    listByUnitPublic availStore { day := { y := 2026, m := 5, d := 10 }, hr := 9, mi := 0 }
        "u1" (some "2026-05-10") (some "1:00")
      = listByUnitPublic availStore { day := { y := 2026, m := 5, d := 10 }, hr := 9, mi := 0 }
        "u1" (some "2026-05-10") (some "12:00") ∧
    listByUnitPublic availStore { day := { y := 2026, m := 5, d := 10 }, hr := 9, mi := 0 }
        "u1" (some "bad") (some "13:00")
      = listByUnitPublic availStore { day := { y := 2026, m := 5, d := 10 }, hr := 9, mi := 0 }
        "u1" (some "2026-05-10") (some "13:00") :=
  ⟨C10_malformed_fallbacks.1 availStore
      { day := { y := 2026, m := 5, d := 10 }, hr := 9, mi := 0 }
      "u1" (some "2026-05-10") "1:00" (by decide) (by decide),
    C10_malformed_fallbacks.2 availStore
      { day := { y := 2026, m := 5, d := 10 }, hr := 9, mi := 0 }
      "u1" "bad" (some "13:00") "2026-05-10" (by decide) (by decide) (by decide)⟩

/-- Claim C4 counterexample.  On `c4Store` the request's unit is missing or
inactive *and* its contact already holds an `AWAITING_CHECKIN`
reservation: the route answers `ALREADY_HAS_ACTIVE_RESERVATION`, not
`UNIT_NOT_FOUND` — the anti-duplication check runs before unit
resolution. -/
theorem C4_counterexample :
    publicCreateCheck c4Store c4Req
      = some CreateError.ALREADY_HAS_ACTIVE_RESERVATION ∧
    (∀ un ∈ c4Store.units, un.isActive = false) := by
  decide

/-- Claim C4, amended.  For a request passing the basic field validations,
the public create route evaluates its checks in the order: (c) contact
anti-duplication (`ALREADY_HAS_ACTIVE_RESERVATION`), then (a) unit
resolution (`UNIT_NOT_FOUND`), then (b) area resolution
(`AREA_NOT_FOUND`), then (d) blocks (`BLOCKED_DAY`), then (e) capacity
(`NO_CAPACITY`) — so a request with a missing/inactive unit whose contact
holds an active reservation fails with `ALREADY_HAS_ACTIVE_RESERVATION` —
and every failure occurs before any write: on any check error the store is
returned unchanged. -/
theorem C4_validation_order (db : Store) (req : CreateRequest) (dt : Timestamp)
    (hfn : ¬(req.fullName = "" ∨ (trimStr req.fullName).data.length < 3))
    (hpe : 1 ≤ req.people)
    (hui : truthyOpt req.unitId = true)
    (hai : truthyOpt req.areaId = true)
    (hdt : req.reservationDate = some dt) :
    (publicDupHit db req = true →
      publicCreateCheck db req = some CreateError.ALREADY_HAS_ACTIVE_RESERVATION) ∧
    (publicDupHit db req = false → publicUnitOk db req = none →
      publicCreateCheck db req = some CreateError.UNIT_NOT_FOUND) ∧
    (∀ unit, publicDupHit db req = false → publicUnitOk db req = some unit →
      publicAreaOk db req unit = none →
      publicCreateCheck db req = some CreateError.AREA_NOT_FOUND) ∧
    (∀ unit area, publicDupHit db req = false → publicUnitOk db req = some unit →
      publicAreaOk db req unit = some area → publicBlockHit db dt unit area = true →
      publicCreateCheck db req = some CreateError.BLOCKED_DAY) ∧
    (∀ unit area, publicDupHit db req = false → publicUnitOk db req = some unit →
      publicAreaOk db req unit = some area → publicBlockHit db dt unit area = false →
      publicOverCap db req dt area = true →
      publicCreateCheck db req = some CreateError.NO_CAPACITY) ∧
    (∀ unit area, publicDupHit db req = false → publicUnitOk db req = some unit →
      publicAreaOk db req unit = some area → publicBlockHit db dt unit area = false →
      publicOverCap db req dt area = false → publicCreateCheck db req = none) ∧
    (∀ rid code qr, (publicCreateCheck db req).isSome = true →
      publicCreateRoute db req rid code qr = (publicCreateCheck db req, db)) := by
  obtain ⟨hfn1, hfn2⟩ := not_or.mp hfn
  have hpe2 : ¬(req.people < 1) := by omega
  have hmaster : publicCreateCheck db req =
      (if publicDupHit db req then some CreateError.ALREADY_HAS_ACTIVE_RESERVATION
       else match publicUnitOk db req with
        | none => some CreateError.UNIT_NOT_FOUND
        | some unit =>
          match publicAreaOk db req unit with
          | none => some CreateError.AREA_NOT_FOUND
          | some area =>
            if publicBlockHit db dt unit area then some CreateError.BLOCKED_DAY
            else if publicOverCap db req dt area then some CreateError.NO_CAPACITY
            else none) := by
    simp only [publicCreateCheck, hdt, hfn1, hfn2, hpe2, hui, hai, publicDupHit,
      publicUnitOk, publicAreaOk, publicBlockHit, publicOverCap]
    simp only [decide_eq_true_eq, if_false, Bool.false_or, Bool.not_true,
      Bool.false_eq_true, ite_false, ite_true, decide_False, decide_True]
    rcases hfu : db.units.find? (fun u => u.id = req.unitId.getD "") with _ | unit
    · simp [hfu]
    · simp only [hfu]
      rcases hact : unit.isActive with _ | _
      · simp [hact]
      · simp only [hact, Bool.not_true, Bool.false_eq_true, if_false, ite_true,
          Bool.not_false]
        rcases hfa : db.areas.find? (fun a => a.id = req.areaId.getD "") with _ | area
        · simp [hfa]
        · simp only [hfa]
          by_cases ha1 : area.isActive = true
          · by_cases ha2 : area.unitId = unit.id
            · have haa : (area.isActive && decide (area.unitId = unit.id)) = true := by
                simp [ha1, ha2]
              simp [haa, ha1, ha2]
            · have haa : (area.isActive && decide (area.unitId = unit.id)) = false := by
                simp [ha2]
              simp [haa, ha2]
          · have hf : area.isActive = false := Bool.not_eq_true area.isActive |>.mp ha1
            have haa : (area.isActive && decide (area.unitId = unit.id)) = false := by
              simp [hf]
            simp [haa, hf]
  refine ⟨?_, ?_, ?_, ?_, ?_, ?_, ?_⟩
  · intro hdup
    rw [hmaster]
    simp [hdup]
  · intro hdup hunit
    rw [hmaster]
    simp [hdup, hunit]
  · intro unit hdup hunit harea
    rw [hmaster]
    simp [hdup, hunit, harea]
  · intro unit area hdup hunit harea hblk
    rw [hmaster]
    simp [hdup, hunit, harea, hblk]
  · intro unit area hdup hunit harea hblk hcap
    rw [hmaster]
    simp [hdup, hunit, harea, hblk, hcap]
  · intro unit area hdup hunit harea hblk hcap
    rw [hmaster]
    simp [hdup, hunit, harea, hblk, hcap]
  · intro rid code qr hsome
    rcases hc : publicCreateCheck db req with _ | e
    · rw [hc] at hsome
      simp at hsome
    · simp [publicCreateRoute, hc]

/-- Witness for the amended C4 at `c4Store`/`c4Req` (all basic-validation
hypotheses hold there). -/
theorem C4_validation_order_witness :
    (publicDupHit c4Store c4Req = true →
      publicCreateCheck c4Store c4Req = some CreateError.ALREADY_HAS_ACTIVE_RESERVATION) ∧
    (publicDupHit c4Store c4Req = false → publicUnitOk c4Store c4Req = none →
      publicCreateCheck c4Store c4Req = some CreateError.UNIT_NOT_FOUND) ∧
    (∀ unit, publicDupHit c4Store c4Req = false →
      publicUnitOk c4Store c4Req = some unit →
      publicAreaOk c4Store c4Req unit = none →
      publicCreateCheck c4Store c4Req = some CreateError.AREA_NOT_FOUND) ∧
    (∀ unit area, publicDupHit c4Store c4Req = false →
      publicUnitOk c4Store c4Req = some unit →
      publicAreaOk c4Store c4Req unit = some area →
      publicBlockHit c4Store { day := { y := 2026, m := 5, d := 11 }, hr := 13, mi := 0 } unit area = true →
      publicCreateCheck c4Store c4Req = some CreateError.BLOCKED_DAY) ∧
    (∀ unit area, publicDupHit c4Store c4Req = false →
      publicUnitOk c4Store c4Req = some unit →
      publicAreaOk c4Store c4Req unit = some area →
      publicBlockHit c4Store { day := { y := 2026, m := 5, d := 11 }, hr := 13, mi := 0 } unit area = false →
      publicOverCap c4Store c4Req { day := { y := 2026, m := 5, d := 11 }, hr := 13, mi := 0 } area = true →
      publicCreateCheck c4Store c4Req = some CreateError.NO_CAPACITY) ∧
    (∀ unit area, publicDupHit c4Store c4Req = false →
      publicUnitOk c4Store c4Req = some unit →
      publicAreaOk c4Store c4Req unit = some area →
      publicBlockHit c4Store { day := { y := 2026, m := 5, d := 11 }, hr := 13, mi := 0 } unit area = false →
      publicOverCap c4Store c4Req { day := { y := 2026, m := 5, d := 11 }, hr := 13, mi := 0 } area = false →
      publicCreateCheck c4Store c4Req = none) ∧
    (∀ rid code qr, (publicCreateCheck c4Store c4Req).isSome = true →
      publicCreateRoute c4Store c4Req rid code qr = (publicCreateCheck c4Store c4Req, c4Store)) :=
  C4_validation_order c4Store c4Req
    { day := { y := 2026, m := 5, d := 11 }, hr := 13, mi := 0 }
    (by decide) (by decide) (by decide) (by decide) rfl

/-- A rendered `YYYY-MM-DD` is never the empty string. -/
theorem fmtYMD_ne_empty (dy : DayDate) : fmtYMD dy ≠ "" := by
  intro h
  have := congrArg String.data h
  simp [fmtYMD] at this

/-- A rendered `HH:mm` is never the empty string. -/
theorem fmtHHmm_ne_empty (h m : Nat) : fmtHHmm h m ≠ "" := by
  intro he
  have := congrArg String.data he
  simp [fmtHHmm] at this

/-- `(o || '') === s` for a non-empty `s` says exactly `o = s` (JS `null`
coalesced to the empty string). -/
theorem optGetD_empty_eq_iff (o : Option String) (s : String) (hs : s ≠ "") :
    o.getD "" = s ↔ o = some s := by
  cases o with
  | none =>
    simp only [Option.getD_none]
    constructor
    · intro h
      exact absurd h.symm hs
    · intro h
      cases h
  | some v => simp

/-- `find?` on an id-preserving image of a duplicate-free area list returns
exactly the image of the sought area — and the period branch is such an
image, so looking an area's id up in the availability list yields its DTO
with the spec `remaining`. -/
theorem listPeriodBranch_find?_spec (db : Store) (u : String) (base : Timestamp)
    (s : String) (sorted : List Area) (a : Area) (ha : a ∈ sorted)
    (hnd : (sorted.map fun x => x.id).Nodup)
    (hwf : ∀ b ∈ db.blocks, b.areaId ≠ some "") (hu : a.unitId = u) :
    (listPeriodBranch db u base s sorted).find? (fun x => x.id = a.id)
      = some { areaToDTO a with
          remaining := some (specRemaining db a base.day (clampToBusinessWindow s))
          available := some (specRemaining db a base.day (clampToBusinessWindow s))
          isAvailable := some (decide (0 < specRemaining db a base.day
            (clampToBusinessWindow s))) } := by
  simp only [listPeriodBranch, periodWindow_eq_spec]
  rw [find?_map_by_id _ sorted (fun x _ => rfl) hnd a ha]
  rw [blocked_eq_spec db u a.id base (clampToBusinessWindow s) hwf,
    usedInWindow_eq_specUsed]
  unfold specRemaining
  rw [hu]
  cases clampToBusinessWindow s <;> simp [specCapacity]

/-- Claim C3, amended.  For a `PUT` update resolving to an active area of
its unit with a valid reservation date, the capacity validation accepts the
new party size `people + kids` iff it does not exceed `available + credit`,
where `available` is the availability calculator's remaining for the target
(with the reservation's own prior contribution still counted in `used`) and
`credit` is the reservation's prior `people + kids` **only when unit, area,
calendar day and the exact HH:mm time of day are all unchanged** — a change
of time within the same period (e.g. 13:00 → 14:00) forfeits the credit,
contrary to the original claim. -/
theorem C3_update_credit (db : Store) (now : Timestamp) (rid : String)
    (body : AdminBody) (dt : Timestamp) (prev : Reservation)
    (uid aid : String) (unitRow : VenueUnit) (areaRow : Area)
    (hwf : WFStore db)
    (hdt : body.reservationDate = some dt) (hv : ValidTS dt)
    (hbu : body.unitId = some uid) (huid : uid ≠ "")
    (hba : body.areaId = some aid) (haid : aid ≠ "")
    (hfu : db.units.find? (fun u => u.id = uid) = some unitRow)
    (hfa : db.areas.find? (fun x => x.id = aid) = some areaRow)
    (hact : areaRow.isActive = true) (hau : areaRow.unitId = uid)
    (hfr : db.reservations.find? (fun r => r.id = rid) = some prev) :
    (enrichAndValidate db now (some rid) body).isPass = true ↔
      body.people + body.kids ≤
        specRemaining db areaRow dt.day (getPeriodFromDate dt) +
          (if prev.unitId = some uid ∧ prev.areaId = some aid ∧
              prev.reservationDate.day = dt.day ∧
              prev.reservationDate.hr = dt.hr ∧
              prev.reservationDate.mi = dt.mi
            then prev.people + prev.kids else 0) := by
  have huid2 : unitRow.id = uid := by
    have := List.find?_some hfu
    simpa using this
  have haid2 : areaRow.id = aid := by
    have := List.find?_some hfa
    simpa using this
  have hmemA : areaRow ∈ db.areas := List.mem_of_find?_eq_some hfa
  have hmemR : prev ∈ db.reservations := List.mem_of_find?_eq_some hfr
  have hvp : ValidTS prev.reservationDate := hwf.2.1 prev hmemR
  have hresU : resolveUnit db body.unitId body.unit
      = (some unitRow.id, some unitRow.name) := by
    rw [hbu]
    simp [resolveUnit, truthyOpt, huid, hfu]
  rw [huid2] at hresU
  have hresA : resolveArea db body.areaId body.area (some uid)
      = (some areaRow.id, some areaRow.name) := by
    rw [hba]
    simp [resolveArea, truthyOpt, haid, hfa]
  rw [haid2] at hresA
  have hbase : parseDateStrict (fmtYMD dt.day)
      = some { day := dt.day, hr := 0, mi := 0 } :=
    parseDateStrict_fmtYMD dt.day hv.2.2.1 hv.2.2.2.1 hv.2.2.2.2.1
      hv.2.2.2.2.2.1 hv.2.2.2.2.2.2
  have hlist : listByUnitPublic db now uid (some (fmtYMD dt.day))
        (some (fmtHHmm dt.hr dt.mi))
      = listPeriodBranch db uid { day := dt.day, hr := 0, mi := 0 }
          (fmtHHmm dt.hr dt.mi)
          (sortAreasByName (db.areas.filter (fun x => x.unitId = uid && x.isActive))) := by
    simp [listByUnitPublic, huid, truthyOpt, fmtYMD_ne_empty dt.day,
      fmtHHmm_ne_empty dt.hr dt.mi, hbase, isValidHHmm_fmtHHmm]
  have hmemS : areaRow ∈ sortAreasByName
      (db.areas.filter (fun x => x.unitId = uid && x.isActive)) :=
    (mem_sortAreasByName _ _).mpr (List.mem_filter.mpr ⟨hmemA, by simp [hau, hact]⟩)
  have hndS : ((sortAreasByName (db.areas.filter (fun x => x.unitId = uid && x.isActive))).map
      fun x => x.id).Nodup :=
    nodup_ids_sortAreasByName _ (nodup_ids_filter _ _ hwf.1)
  have hfind := listPeriodBranch_find?_spec db uid { day := dt.day, hr := 0, mi := 0 }
    (fmtHHmm dt.hr dt.mi) _ areaRow hmemS hndS hwf.2.2 (by rw [hau])
  have heta : ({ day := dt.day, hr := dt.hr, mi := dt.mi } : Timestamp) = dt := by
    cases dt
    rfl
  have hP : clampToBusinessWindow (fmtHHmm dt.hr dt.mi) = getPeriodFromDate dt := by
    have h1 := clampToBusinessWindow_fmtHHmm dt.day dt.hr dt.mi
      (by have := hv.1; omega) (by have := hv.2.1; omega)
    rw [heta] at h1
    exact h1
  rw [haid2, hP] at hfind
  have hcredIff : ((decide (prev.unitId.getD "" = uid) &&
      decide (prev.areaId.getD "" = aid) &&
      decide (fmtYMD prev.reservationDate.day = fmtYMD dt.day) &&
      decide (fmtHHmm prev.reservationDate.hr prev.reservationDate.mi
        = fmtHHmm dt.hr dt.mi)) = true)
      ↔ (prev.unitId = some uid ∧ prev.areaId = some aid ∧
          prev.reservationDate.day = dt.day ∧
          prev.reservationDate.hr = dt.hr ∧ prev.reservationDate.mi = dt.mi) := by
    simp only [Bool.and_eq_true, decide_eq_true_eq]
    constructor
    · rintro ⟨⟨⟨hU, hA⟩, hD⟩, hPd⟩
      have hhm := fmtHHmm_inj _ _ _ _
        (by have := hvp.1; omega) (by have := hvp.2.1; omega)
        (by have := hv.1; omega) (by have := hv.2.1; omega) hPd
      exact ⟨(optGetD_empty_eq_iff _ _ huid).mp hU,
        (optGetD_empty_eq_iff _ _ haid).mp hA,
        fmtYMD_inj _ _
          ⟨hvp.2.2.1, hvp.2.2.2.1, hvp.2.2.2.2.1, hvp.2.2.2.2.2.1, hvp.2.2.2.2.2.2⟩
          ⟨hv.2.2.1, hv.2.2.2.1, hv.2.2.2.2.1, hv.2.2.2.2.2.1, hv.2.2.2.2.2.2⟩ hD,
        hhm.1, hhm.2⟩
    · rintro ⟨hU, hA, hD, hH, hM⟩
      refine ⟨⟨⟨?_, ?_⟩, ?_⟩, ?_⟩ <;> simp [hU, hA, hD, hH, hM]
  simp only [enrichAndValidate, hresU, hresA, hdt]
  simp only [truthyOpt, haid, Option.isSome_some, Option.getD_some, hlist, hfind, hfr]
  rw [if_pos (show (!decide False && true) = true from rfl)]
  simp only [hcredIff]
  by_cases hlt : specRemaining db areaRow dt.day (getPeriodFromDate dt) +
      (if prev.unitId = some uid ∧ prev.areaId = some aid ∧
          prev.reservationDate.day = dt.day ∧
          prev.reservationDate.hr = dt.hr ∧ prev.reservationDate.mi = dt.mi
        then prev.people + prev.kids else 0) < body.people + body.kids
  · rw [if_pos hlt]
    simp only [EnrichOutcome.isPass]
    constructor
    · intro h
      cases h
    · intro h
      omega
  · rw [if_neg hlt]
    simp only [EnrichOutcome.isPass]
    constructor
    · intro _
      omega
    · intro _
      trivial

/-- Claim C3 counterexample.  Updating `c3Prev` (4 seats at 13:00) to 8
seats at 14:00 keeps the same unit, area, calendar day and derived period
(both times are AFTERNOON), and 8 does not exceed
`available + ownPrior = 6 + 4`, so the claim demands acceptance — yet
`enrichAndValidate` rejects with `AREA_NO_CAPACITY`, reporting
`available = 6` and `credit = 0`: the credit is granted only when the exact
`HH:mm` is unchanged. -/
theorem C3_counterexample :
    enrichAndValidate c3Store { day := { y := 2026, m := 5, d := 10 }, hr := 9, mi := 0 }
        (some "r1") c3Body
      = EnrichOutcome.areaNoCapacity 6 0 ∧
    getPeriodFromDate { day := { y := 2026, m := 5, d := 10 }, hr := 14, mi := 0 }
      = getPeriodFromDate c3Prev.reservationDate ∧
    c3Body.people + c3Body.kids ≤ 6 + (c3Prev.people + c3Prev.kids) := by
  decide

/-- Witness for the amended C3: the same 8-seat update at the unchanged
time 13:00 — the hypotheses hold concretely and the theorem's
acceptance-iff applies (here `8 ≤ 6 + 4`, so the update passes). -/
theorem C3_update_credit_witness :
    (enrichAndValidate c3Store { day := { y := 2026, m := 5, d := 10 }, hr := 9, mi := 0 }
        (some "r1") c3wBody).isPass = true ↔
      c3wBody.people + c3wBody.kids ≤
        specRemaining c3Store availArea { y := 2026, m := 5, d := 10 }
          (getPeriodFromDate { day := { y := 2026, m := 5, d := 10 }, hr := 13, mi := 0 }) +
          (if c3Prev.unitId = some "u1" ∧ c3Prev.areaId = some "a1" ∧
              c3Prev.reservationDate.day = { y := 2026, m := 5, d := 10 } ∧
              c3Prev.reservationDate.hr = 13 ∧ c3Prev.reservationDate.mi = 0
            then c3Prev.people + c3Prev.kids else 0) :=
  C3_update_credit c3Store { day := { y := 2026, m := 5, d := 10 }, hr := 9, mi := 0 }
    "r1" c3wBody { day := { y := 2026, m := 5, d := 10 }, hr := 13, mi := 0 } c3Prev
    "u1" "a1" { id := "u1", name := "Mane", slug := "mane", isActive := true } availArea
    (by decide) rfl (by decide) rfl (by decide) rfl (by decide)
    (by decide) (by decide) (by decide) (by decide) (by decide)
